import Mathlib

/-
Verification development for the LogKitchen synthetic log generator
(src/logkitchen/generators/*.py).

Shallow embedding conventions:

* Python's process-global `random` module stream and the Faker library's
  class-level stream are modelled by two fields of a single `World` value
  that every drawing operation threads through.  The Mersenne-Twister
  engine itself is replaced by a concrete deterministic stand-in
  (`PyRand.next`); what the embedding preserves faithfully is the STRUCTURE
  of the source: which calls draw from which stream, in which order, how the
  drawn raw value is reduced into a range, and that seeding resets the
  stream to a state depending only on the seed.
* `random.random()` is modelled as drawing the midpoint value
  (2*(v mod 100)+1)/200 from a uniform 100-point grid on (0,1)
  (`pyRandomVal`).  The grid midpoints never collide with the thresholds
  0.1, 0.15, 0.3, 0.5, 0.7, 0.8, 0.85, 0.95 used by the source, so every
  probability of the form `random.random() > c` is exact on the grid.
* `datetime.now()` is an external input: constructors and the Verifone
  generate paths take the current time as an epoch-microseconds integer.
  `datetime` arithmetic is exact microsecond arithmetic; `strftime` is
  implemented per format string used by the source.
* Faker (a third-party dependency whose code is not part of this
  repository) is modelled from its documented contract with stand-in
  vocabularies: `ipv4_public` never returns an address in the RFC1918
  blocks 10/8, 172.16/12, 192.168/16; name/username providers return
  strings from fixed pools, consuming the Faker stream.
-/

/-- Deterministic stand-in for one pseudo-random stream (Python's global
`random` module stream, or Faker's shared stream).  `base` is fixed by
seeding, `idx` advances by one on every draw. -/
structure PyRand where
  base : Nat
  idx : Nat
deriving Repr, DecidableEq

/-- One raw draw: a value below 2^32 plus the advanced stream. -/
def PyRand.next (r : PyRand) : Nat × PyRand :=
  (((r.base + 17) * 2654435761 + r.idx * 1103515245 + 12345) % 4294967296,
   ⟨r.base, r.idx + 1⟩)

/-- Stream state produced by `random.seed(s)`: depends only on the seed. -/
def pySeedFn (s : Int) : PyRand :=
  ⟨2 * s.natAbs + (if s < 0 then 1 else 0), 0⟩

/-- Stream state produced by `Faker.seed(s)`: depends only on the seed. -/
def fakerSeedFn (s : Int) : PyRand :=
  ⟨2 * s.natAbs + (if s < 0 then 1 else 0) + 987654321, 0⟩

/-- The process-global mutable state shared by every generator instance:
the `random` module stream and Faker's class-level stream. -/
structure World where
  rng : PyRand
  fk : PyRand
deriving Repr, DecidableEq

/-- Raw draw from the global `random` stream. -/
def nextNat (w : World) : Nat × World :=
  let (v, r) := w.rng.next
  (v, { w with rng := r })

/-- Raw draw from the Faker stream. -/
def fkNext (w : World) : Nat × World :=
  let (v, r) := w.fk.next
  (v, { w with fk := r })

/-- The value `random.random()` yields from raw draw `v`, represented
exactly by its numerator over the fixed denominator 200: the midpoint
(2*(v mod 100)+1)/200 of a uniform 100-point grid on (0,1).  The grid
values are odd numerators, while every threshold the source compares
against (0.1, 0.15, 0.3, 0.5, 0.7, 0.8, 0.95) has an even numerator over
200, so each comparison `random.random() > c` translates exactly to the
integer comparison `pyRandomVal v > 200*c`. -/
def pyRandomVal (v : Nat) : Nat :=
  2 * (v % 100) + 1

/-- `random.random()` (numerator-over-200 representation). -/
def pyRandom (w : World) : Nat × World :=
  let (v, w) := nextNat w
  (pyRandomVal v, w)

/-- `random.randint(a, b)` for naturals `a ≤ b`: uniform on `[a, b]`. -/
def randintN (a b : Nat) (w : World) : Nat × World :=
  let (v, w) := nextNat w
  (a + v % (b - a + 1), w)

/-- `random.choice(l)` on a non-empty list (`d` is a default that is never
reached when `l` is non-empty, since the index is reduced modulo the
length). -/
def pyChoice (l : List α) (d : α) (w : World) : α × World :=
  let (v, w) := nextNat w
  (l.getD (v % l.length) d, w)

/-- One unweighted `random.choices` element: `population[floor(random() * n)]`
(with `random()` = u/200 this is `u * n / 200` in integer floor division). -/
def pyChoicesOne (l : List α) (d : α) (w : World) : α × World :=
  let (u, w) := pyRandom w
  (l.getD (u * l.length / 200) d, w)

/-- `random.choices(l, k=k)` without weights: `k` independent unweighted draws. -/
def pyChoicesN (l : List α) (d : α) : Nat → World → List α × World
  | 0, w => ([], w)
  | k + 1, w =>
    let (x, w) := pyChoicesOne l d w
    let (rest, w) := pyChoicesN l d k w
    (x :: rest, w)

/-- Cumulative sums of a weight list, as built by `random.choices` via
`itertools.accumulate`.  Weights are exact integers: the source's
two-decimal float weights are represented multiplied by a common positive
factor per table (the selection made by `random.choices` is invariant
under such scaling). -/
def cumWeights : List Int → List Int
  | [] => []
  | x :: xs => x :: (cumWeights xs).map (fun c => x + c)

/-- `bisect.bisect_right(cum, random() * total, 0, hi)` on a nondecreasing
cumulative list: the number of entries among the first `hi` that are
`≤ u/200 * total`, i.e. with `200 * c ≤ u * total` in exact integer
arithmetic. -/
def bisectRight (l : List Int) (u : Nat) (total : Int) (hi : Nat) : Nat :=
  ((l.take hi).filter (fun c => 200 * c ≤ (u : Int) * total)).length

/-- `random.choices(items, weights=ws, k=1)[0]`.  Faithful to CPython's
control flow: an empty population raises (IndexError on `cum_weights[-1]`)
and a non-positive total raises (ValueError), both BEFORE any stream draw;
otherwise one `random.random()` draw selects the slot by bisection over the
cumulative weights, with the index clamped to `len - 1`. -/
def pyChoicesW (items : List α) (ws : List Int) (d : α) (w : World) :
    Except String α × World :=
  if items.length = 0 then
    (.error "IndexError: cum_weights is empty", w)
  else
    let total := (cumWeights ws).getLastD 0
    if total ≤ 0 then
      (.error "ValueError: Total of weights must be greater than zero", w)
    else
      let (u, w) := pyRandom w
      (.ok (items.getD (bisectRight (cumWeights ws) u total (items.length - 1)) d), w)

/-- `BaseLogGenerator.weighted_choice(choices)`: keys and weights of the
mapping in insertion order, passed to `random.choices(..., k=1)[0]`. -/
def weightedChoice (choices : List (α × Int)) (d : α) (w : World) :
    Except String α × World :=
  pyChoicesW (choices.map Prod.fst) (choices.map Prod.snd) d w

/-- Total wrapper used by the generators' dispatch code.  Every call site in
the source passes a concrete table with positive total weight, so the error
branch (which in Python would propagate an exception) is unreachable there. -/
def weightedChoiceRun (choices : List (α × Int)) (d : α) (w : World) : α × World :=
  match weightedChoice choices d w with
  | (.ok a, w) => (a, w)
  | (.error _, w) => (d, w)

/-- Inner loop of `random.sample`'s pool algorithm: at step `i` the source
draws `j = _randbelow(n - i)`, emits `pool[j]` and moves `pool[n-i-1]` into
slot `j`. -/
def pySampleGo (d : α) : List α → Nat → Nat → World → List α × World
  | _, _, 0, w => ([], w)
  | pool, n, k + 1, w =>
    let (v, w) := nextNat w
    let j := v % n
    let x := pool.getD j d
    let pool := pool.set j (pool.getD (n - 1) d)
    let (rest, w) := pySampleGo d pool (n - 1) k w
    (x :: rest, w)

/-- `random.sample(l, k)` (pool algorithm branch, the one CPython takes for
the small populations used in this code base). -/
def pySample (l : List α) (k : Nat) (d : α) (w : World) : List α × World :=
  pySampleGo d l l.length k w

/-- Left-pad the decimal representation of `n` with zeros to width `width`. -/
def padNat (width : Nat) (n : Nat) : String :=
  let s := Nat.repr n
  ⟨List.replicate (width - s.length) '0'⟩ ++ s

/-- Two-digit zero padding (`%02d`-style). -/
def pad2 (n : Nat) : String := padNat 2 n

/-- Three-digit zero padding (`%03d`-style, also `{millisec:03d}`). -/
def pad3 (n : Nat) : String := padNat 3 n

/-- Lowercase hex digits of `n` (via `Nat.toDigits 16`). -/
def hexLower (n : Nat) : String := (Nat.toDigits 16 n).asString

/-- Uppercase hex digits of `n` (`{v:X}`-style). -/
def hexUpper (n : Nat) : String := ((Nat.toDigits 16 n).map Char.toUpper).asString

/-- `{v:02x}`: lowercase hex, zero-padded to two digits. -/
def hexPad2 (n : Nat) : String :=
  let s := hexLower n
  ⟨List.replicate (2 - s.length) '0'⟩ ++ s

/-- Civil date from days since the Unix epoch (standard era-based
algorithm); returns (year, month, day). -/
def civilFromDays (z0 : Int) : Int × Nat × Nat :=
  let z := z0 + 719468
  let era := Int.ediv (if 0 ≤ z then z else z - 146096) 146097
  let doe := (z - era * 146097).toNat
  let yoe := (doe - doe / 1460 + doe / 36524 - doe / 146096) / 365
  let y := (yoe : Int) + era * 400
  let doy := doe - (365 * yoe + yoe / 4 - yoe / 100)
  let mp := (5 * doy + 2) / 153
  let d := doy - (153 * mp + 2) / 5 + 1
  let m := if mp < 10 then mp + 3 else mp - 9
  (if m ≤ 2 then y + 1 else y, m, d)

/-- Broken-down naive datetime, the model of a Python `datetime` value. -/
structure DT where
  year : Int
  month : Nat
  day : Nat
  hour : Nat
  minute : Nat
  second : Nat
  microsec : Nat
deriving Repr, DecidableEq

/-- Split epoch microseconds into calendar fields. -/
def dtParts (us : Int) : DT :=
  let sec := Int.ediv us 1000000
  let usRem := (Int.emod us 1000000).toNat
  let days := Int.ediv sec 86400
  let sod := (Int.emod sec 86400).toNat
  let c := civilFromDays days
  { year := c.1, month := c.2.1, day := c.2.2,
    hour := sod / 3600, minute := sod / 60 % 60, second := sod % 60,
    microsec := usRem }

/-- Abbreviated month name (`%b`). -/
def monthAbbrev (m : Nat) : String :=
  ["Jan", "Feb", "Mar", "Apr", "May", "Jun",
   "Jul", "Aug", "Sep", "Oct", "Nov", "Dec"].getD (m - 1) "Jan"

/-- `strftime("%b %d %H:%M:%S")` (syslog timestamps). -/
def fmtSyslogTs (us : Int) : String :=
  let p := dtParts us
  monthAbbrev p.month ++ " " ++ pad2 p.day ++ " " ++
    pad2 p.hour ++ ":" ++ pad2 p.minute ++ ":" ++ pad2 p.second

/-- `strftime("%b %d %Y %H:%M:%S")` (CEF `rt` extension). -/
def fmtCEFTs (us : Int) : String :=
  let p := dtParts us
  monthAbbrev p.month ++ " " ++ pad2 p.day ++ " " ++ padNat 4 p.year.toNat ++ " " ++
    pad2 p.hour ++ ":" ++ pad2 p.minute ++ ":" ++ pad2 p.second

/-- `strftime("%m/%d/%Y %I:%M:%S %p")` (Windows event timestamps). -/
def fmtWinTs (us : Int) : String :=
  let p := dtParts us
  let h12 := if p.hour % 12 = 0 then 12 else p.hour % 12
  pad2 p.month ++ "/" ++ pad2 p.day ++ "/" ++ padNat 4 p.year.toNat ++ " " ++
    pad2 h12 ++ ":" ++ pad2 p.minute ++ ":" ++ pad2 p.second ++ " " ++
    (if p.hour < 12 then "AM" else "PM")

/-- `strftime("%Y-%m-%d %H:%M:%S.%f")[:-3]` (Verifone POS timestamps:
microseconds rendered to six digits, the last three sliced off, leaving
milliseconds). -/
def fmtVerifoneTs (us : Int) : String :=
  let p := dtParts us
  padNat 4 p.year.toNat ++ "-" ++ pad2 p.month ++ "-" ++ pad2 p.day ++ " " ++
    pad2 p.hour ++ ":" ++ pad2 p.minute ++ ":" ++ pad2 p.second ++ "." ++
    pad3 (p.microsec / 1000)

/-- `strftime("%m-%d")` (Verifone topaz archive file names). -/
def fmtMonthDay (us : Int) : String :=
  let p := dtParts us
  pad2 p.month ++ "-" ++ pad2 p.day

/-- `int(dt.timestamp())`: epoch seconds of a datetime (auditd headers). -/
def epochSeconds (us : Int) : Int := Int.ediv us 1000000

/-- `sep.join(parts)`. -/
def joinSep (sep : String) : List String → String
  | [] => ""
  | [x] => x
  | x :: y :: xs => x ++ sep ++ joinSep sep (y :: xs)

/-- Lowercase a string (`str.lower()` for the ASCII vocabularies used here). -/
def strLower (s : String) : String := ⟨s.data.map Char.toLower⟩

/-! ## CEF escaping and unescaped-pipe splitting -/

/-- `str.replace('\\', '\\\\')` at character level: double every backslash. -/
def replBackslash : List Char → List Char
  | [] => []
  | c :: t => (if c = '\\' then ['\\', '\\'] else [c]) ++ replBackslash t

/-- `str.replace('|', '\\|')` at character level: prefix every pipe with a
backslash. -/
def replPipe : List Char → List Char
  | [] => []
  | c :: t => (if c = '|' then ['\\', '|'] else [c]) ++ replPipe t

/-- The CEF extension-value escape of `_format_cef`:
`str(value).replace('\\', '\\\\').replace('|', '\\|')`. -/
def escapeCEF (s : String) : String := ⟨replPipe (replBackslash s.data)⟩

/-- Per-character form of the composed escape (the first replace introduces
no pipes and the second only touches pipes, so the two sequential passes
collapse to one). -/
def escChar (c : Char) : List Char :=
  if c = '\\' then ['\\', '\\'] else if c = '|' then ['\\', '|'] else [c]

/-- Splitting scanner: walks the characters keeping the accumulated current
segment (reversed) and the parity of the run of backslashes immediately
before the scan point (`odd = true` iff that run has odd length).  A pipe
preceded by an even run of backslashes is an unescaped pipe and starts a
new segment. -/
def splitUnescAux : List Char → List Char → Bool → List (List Char)
  | [], acc, _ => [acc.reverse]
  | c :: t, acc, odd =>
    if c = '|' ∧ odd = false then acc.reverse :: splitUnescAux t [] false
    else splitUnescAux t (c :: acc) (decide (c = '\\') && !odd)

/-- Split a serialized CEF line on its unescaped pipes. -/
def splitUnescPipes (s : String) : List String :=
  (splitUnescAux s.data [] false).map fun l => ⟨l⟩

/-- A string usable as a CEF header field or extension key: contains
neither a pipe nor a backslash. -/
def pipeSafe (s : String) : Bool :=
  s.data.all fun c => c ≠ '|' ∧ c ≠ '\\'

/-! ## Faker model (third-party library, modelled from its contract) -/

/-- Stand-in pool for `faker.first_name()`. -/
def fakerFirstNamesList : List String :=
  ["James", "Mary", "Robert", "Patricia", "John", "Jennifer", "Michael", "Linda"]

/-- Stand-in pool for `faker.last_name()`. -/
def fakerLastNamesList : List String :=
  ["Smith", "Johnson", "Williams", "Brown", "Jones", "Garcia", "Miller", "Davis"]

/-- Stand-in pool for `faker.user_name()`. -/
def fakerUserNamesList : List String :=
  ["jsmith42", "mwilliams", "bdavis7", "kjohnson", "tbrown88", "cgarcia"]

/-- `faker.first_name()`: one Faker-stream draw from the pool. -/
def fakerFirstName (w : World) : String × World :=
  let (v, w) := fkNext w
  (fakerFirstNamesList.getD (v % fakerFirstNamesList.length) "James", w)

/-- `faker.last_name()`: one Faker-stream draw from the pool. -/
def fakerLastName (w : World) : String × World :=
  let (v, w) := fkNext w
  (fakerLastNamesList.getD (v % fakerLastNamesList.length) "Smith", w)

/-- `faker.user_name()`: one Faker-stream draw from the pool. -/
def fakerUserName (w : World) : String × World :=
  let (v, w) := fkNext w
  (fakerUserNamesList.getD (v % fakerUserNamesList.length) "jsmith42", w)

/-- First octets the modelled `faker.ipv4_public()` can produce.  Faker's
contract is that a public IPv4 address is never inside a private network;
the stand-in enforces this by never drawing 10, 172 or 192 as first octet. -/
def fakerPublicFirstOctets : List Nat := [5, 23, 52, 81, 133, 198, 203]

/-- `faker.ipv4_public()`, octet form: modelled from the Faker contract
(documented public-only IPv4 source); consumes four Faker-stream draws. -/
def fakerIpv4PublicOctets (w : World) : (Nat × Nat × Nat × Nat) × World :=
  let v1 := fkNext w
  let v2 := fkNext v1.2
  let v3 := fkNext v2.2
  let v4 := fkNext v3.2
  ((fakerPublicFirstOctets.getD (v1.1 % fakerPublicFirstOctets.length) 5,
    v2.1 % 256, v3.1 % 256, v4.1 % 256), v4.2)

/-! ## BaseLogGenerator -/

/-- Instance state created by `BaseLogGenerator.__init__`: the stored seed
and the reference clock `self.current_time = datetime.now()` captured at
construction (epoch microseconds). -/
structure BaseState where
  seed : Option Int
  currentTime : Int
deriving Repr, DecidableEq

/-- `BaseLogGenerator.__init__(seed)`: `if seed:` is Python truthiness, so
seeding happens only for a non-`None`, non-zero seed; it reseeds BOTH the
process-global `random` stream and Faker's shared stream, replacing
whatever state they held. -/
def baseInit (seed : Option Int) (now : Int) (w : World) : BaseState × World :=
  match seed with
  | some s =>
    if s ≠ 0 then (⟨seed, now⟩, ⟨pySeedFn s, fakerSeedFn s⟩) else (⟨seed, now⟩, w)
  | none => (⟨seed, now⟩, w)

/-- `generate_datetime(max_days_past)`: uniform seconds offset in
`[0, max_days_past*86400]` subtracted from the fixed reference clock. -/
def generateDatetime (st : BaseState) (maxDaysPast : Nat) (w : World) :
    Int × World :=
  let (sp, w) := randintN 0 (maxDaysPast * 24 * 3600) w
  (st.currentTime - (sp : Int) * 1000000, w)

/-- `generate_timestamp(format_string, max_days_past)`, with the strftime
format supplied as a rendering function. -/
def generateTimestampWith (render : Int → String) (st : BaseState)
    (maxDaysPast : Nat) (w : World) : String × World :=
  let (dt, w) := generateDatetime st maxDaysPast w
  (render dt, w)

/-- Render four octets as a dotted quad. -/
def ipRender (o : Nat × Nat × Nat × Nat) : String :=
  Nat.repr o.1 ++ "." ++ Nat.repr o.2.1 ++ "." ++ Nat.repr o.2.2.1 ++ "." ++
    Nat.repr o.2.2.2

/-- The private branch of `generate_ip_address`, octet form: one draw picks
one of the three RFC1918 templates, then the per-template octet draws. -/
def generateIpOctetsPrivate (w : World) : (Nat × Nat × Nat × Nat) × World :=
  let sel := nextNat w
  match sel.1 % 3 with
  | 0 =>
    let a := randintN 0 255 sel.2
    let b := randintN 0 255 a.2
    let c := randintN 1 254 b.2
    ((10, a.1, b.1, c.1), c.2)
  | 1 =>
    let a := randintN 16 31 sel.2
    let b := randintN 0 255 a.2
    let c := randintN 1 254 b.2
    ((172, a.1, b.1, c.1), c.2)
  | _ =>
    let b := randintN 0 255 sel.2
    let c := randintN 1 254 b.2
    ((192, 168, b.1, c.1), c.2)

/-- `generate_ip_address(private)`: private draws one of the three RFC1918
templates; public delegates to `faker.ipv4_public()`. -/
def generateIpAddress (priv : Bool) (w : World) : String × World :=
  if priv then
    let o := generateIpOctetsPrivate w
    (ipRender o.1, o.2)
  else
    let o := fakerIpv4PublicOctets w
    (ipRender o.1, o.2)

/-- `generate_username()`: one global-stream draw picks one of the four
patterns, which then draws fresh name tokens from the Faker stream. -/
def generateUsername (w : World) : String × World :=
  let (p, w) := nextNat w
  match p % 4 with
  | 0 => fakerUserName w
  | 1 =>
    let (f, w) := fakerFirstName w
    (strLower f, w)
  | 2 =>
    let (f, w) := fakerFirstName w
    let (l, w) := fakerLastName w
    (strLower f ++ "." ++ strLower l, w)
  | _ =>
    let (f, w) := fakerFirstName w
    let (l, w) := fakerLastName w
    (strLower ⟨f.data.take 1⟩ ++ strLower l, w)

/-- Fixed prefix vocabulary of `generate_hostname`. -/
def hostnamePrefixes : List String :=
  ["web", "app", "db", "mail", "dns", "fw", "proxy", "dc", "fs"]

/-- `generate_hostname(prefix)`. -/
def generateHostname (pre : Option String) (w : World) : String × World :=
  match pre with
  | some p =>
    let (n, w) := randintN 1 100 w
    (p ++ "-" ++ Nat.repr n, w)
  | none =>
    let (p, w) := pyChoice hostnamePrefixes "web" w
    let (n, w) := randintN 1 100 w
    (p ++ "-" ++ Nat.repr n, w)

/-- Well-known port list of `generate_port`. -/
def commonPorts : List Nat :=
  [22, 23, 25, 53, 80, 110, 143, 443, 445, 3306, 3389, 5432, 8080, 8443]

/-- `generate_port(well_known)`. -/
def generatePort (wellKnown : Bool) (w : World) : Nat × World :=
  if wellKnown then pyChoice commonPorts 22 w else randintN 1024 65535 w

/-- `generate_mac_address()`: six octet draws, lowercase two-digit hex,
colon-joined. -/
def generateMacAddress (w : World) : String × World :=
  let (a, w) := randintN 0 255 w
  let (b, w) := randintN 0 255 w
  let (c, w) := randintN 0 255 w
  let (d, w) := randintN 0 255 w
  let (e, w) := randintN 0 255 w
  let (f, w) := randintN 0 255 w
  (joinSep ":" [hexPad2 a, hexPad2 b, hexPad2 c, hexPad2 d, hexPad2 e, hexPad2 f], w)

/-! ## SyslogGenerator -/

/-- `self.users` vocabulary of `SyslogGenerator`. -/
def syslogUsers : List String :=
  ["root", "admin", "ubuntu", "centos", "deploy", "ansible",
   "jenkins", "www-data", "mysql", "postgres", "redis"]

/-- Instance state of a `SyslogGenerator` (the facility/severity tables are
constant and unused by generation). -/
structure SyslogState where
  base : BaseState
deriving Repr, DecidableEq

/-- `SyslogGenerator.__init__`. -/
def syslogInit (seed : Option Int) (now : Int) (w : World) : SyslogState × World :=
  let (b, w) := baseInit seed now w
  (⟨b⟩, w)

/-- `_format_syslog`: `timestamp hostname process[pid]: message`. -/
def formatSyslog (timestamp hostname process : String) (pid : Nat)
    (message : String) : String :=
  timestamp ++ " " ++ hostname ++ " " ++ process ++ "[" ++ Nat.repr pid ++ "]: " ++
    message

/-- The sixteen characters of `'0123456789abcdef'`. -/
def hexAlphabet : List Char := "0123456789abcdef".data

/-- `''.join(random.choices('0123456789abcdef', k=k))`. -/
def randHexString (k : Nat) (w : World) : String × World :=
  let (cs, w) := pyChoicesN hexAlphabet '0' k w
  (⟨cs⟩, w)

/-- `_generate_ssh_event`. -/
def syslogSshEvent (st : SyslogState) (w : World) : String × World :=
  let (ts, w) := generateTimestampWith fmtSyslogTs st.base 7 w
  let (host, w) := generateHostname none w
  let (pid, w) := randintN 1000 65535 w
  let (et, w) := weightedChoiceRun
    [("accepted", 60), ("failed", 30), ("disconnect", 10)] "accepted" w
  if et = "accepted" then
    let (user, w) := pyChoice syslogUsers "root" w
    let (srcIp, w) := generateIpAddress false w
    let (port, w) := randintN 40000 65000 w
    let (hex, w) := randHexString 43 w
    let messages := [
      "Accepted password for " ++ user ++ " from " ++ srcIp ++ " port " ++
        Nat.repr port ++ " ssh2",
      "Accepted publickey for " ++ user ++ " from " ++ srcIp ++ " port " ++
        Nat.repr port ++ " ssh2: RSA SHA256:" ++ hex,
      "pam_unix(sshd:session): session opened for user " ++ user ++ " by (uid=0)"]
    let (message, w) := pyChoice messages "" w
    (formatSyslog ts host "sshd" pid message, w)
  else if et = "failed" then
    let (user, w) := pyChoice (syslogUsers ++ ["invalid", "test", "guest", "oracle"]) "root" w
    let (srcIp, w) := generateIpAddress false w
    let (port, w) := randintN 40000 65000 w
    let messages := [
      "Failed password for " ++ user ++ " from " ++ srcIp ++ " port " ++
        Nat.repr port ++ " ssh2",
      "Failed password for invalid user " ++ user ++ " from " ++ srcIp ++ " port " ++
        Nat.repr port ++ " ssh2",
      "Connection closed by authenticating user " ++ user ++ " " ++ srcIp ++
        " port " ++ Nat.repr port ++ " [preauth]",
      "Invalid user " ++ user ++ " from " ++ srcIp ++ " port " ++ Nat.repr port,
      "Received disconnect from " ++ srcIp ++ " port " ++ Nat.repr port ++
        ":11: Bye Bye [preauth]"]
    let (message, w) := pyChoice messages "" w
    (formatSyslog ts host "sshd" pid message, w)
  else
    let (srcIp, w) := generateIpAddress false w
    let (port, w) := randintN 40000 65000 w
    let message := "Received disconnect from " ++ srcIp ++ " port " ++
      Nat.repr port ++ ":11: disconnected by user"
    (formatSyslog ts host "sshd" pid message, w)

/-- Command vocabulary of `_generate_sudo_event`. -/
def sudoCommands : List String :=
  ["/usr/bin/systemctl restart nginx", "/usr/bin/systemctl status apache2",
   "/usr/bin/apt update", "/usr/bin/yum update", "/bin/cat /var/log/syslog",
   "/usr/bin/docker ps", "/usr/bin/docker restart webapp",
   "/bin/journalctl -u sshd", "/usr/sbin/iptables -L",
   "/usr/bin/vim /etc/nginx/nginx.conf"]

/-- `_generate_sudo_event`. -/
def syslogSudoEvent (st : SyslogState) (w : World) : String × World :=
  let (ts, w) := generateTimestampWith fmtSyslogTs st.base 7 w
  let (host, w) := generateHostname none w
  let (pid, w) := randintN 1000 65535 w
  let (user, w) := pyChoice (syslogUsers.filter (fun u => u ≠ "root")) "admin" w
  let (command, w) := pyChoice sudoCommands "" w
  -- success = random.random() > 0.1
  let (u, w) := pyRandom w
  if u > 20 then
    let (tty, w) := randintN 0 5 w
    (formatSyslog ts host "sudo" pid
      (user ++ " : TTY=pts/" ++ Nat.repr tty ++ " ; PWD=/home/" ++ user ++
        " ; USER=root ; COMMAND=" ++ command), w)
  else
    let (tty, w) := randintN 0 5 w
    (formatSyslog ts host "sudo" pid
      (user ++ " : command not allowed ; TTY=pts/" ++ Nat.repr tty ++
        " ; PWD=/home/" ++ user ++ " ; USER=root ; COMMAND=" ++ command), w)

/-- `_generate_auth_event`. -/
def syslogAuthEvent (st : SyslogState) (w : World) : String × World :=
  let (ts, w) := generateTimestampWith fmtSyslogTs st.base 7 w
  let (host, w) := generateHostname none w
  let (pid, w) := randintN 1000 65535 w
  let (user, w) := pyChoice syslogUsers "root" w
  let (n4, w) := randintN 1 999 w
  let (n5, w) := randintN 1 999 w
  let events := [
    "pam_unix(cron:session): session opened for user " ++ user ++ " by (uid=0)",
    "pam_unix(cron:session): session closed for user " ++ user,
    "pam_unix(sudo:session): session opened for user root by " ++ user ++ "(uid=0)",
    "pam_unix(sudo:session): session closed for user root",
    "New session " ++ Nat.repr n4 ++ " of user " ++ user ++ ".",
    "Removed session " ++ Nat.repr n5 ++ "."]
  let (message, w) := pyChoice events "" w
  let (process, w) := pyChoice ["systemd-logind", "su", "login"] "su" w
  (formatSyslog ts host process pid message, w)

/-- Command vocabulary of `_generate_cron_event`. -/
def cronCommands : List String :=
  ["/usr/bin/backup.sh", "/usr/local/bin/cleanup.sh",
   "/home/user/scripts/monitor.py", "/usr/bin/certbot renew", "/usr/bin/updatedb"]

/-- `_generate_cron_event`. -/
def syslogCronEvent (st : SyslogState) (w : World) : String × World :=
  let (ts, w) := generateTimestampWith fmtSyslogTs st.base 7 w
  let (host, w) := generateHostname none w
  let (pid, w) := randintN 1000 65535 w
  let (user, w) := pyChoice syslogUsers "root" w
  let (cmd, w) := pyChoice cronCommands "" w
  let events := [
    "(" ++ user ++ ") CMD (" ++ cmd ++ ")",
    "(CRON) info (No MTA installed, discarding output)",
    "(" ++ user ++ ") CMD (cd /var/www && php artisan schedule:run)"]
  let (message, w) := pyChoice events "" w
  (formatSyslog ts host "CRON" pid message, w)

/-- Service vocabulary of `_generate_systemd_event`. -/
def systemdServices : List String :=
  ["nginx.service", "apache2.service", "mysql.service", "postgresql.service",
   "redis.service", "docker.service", "sshd.service", "cron.service", "ufw.service"]

/-- `_generate_systemd_event`. -/
def syslogSystemdEvent (st : SyslogState) (w : World) : String × World :=
  let (ts, w) := generateTimestampWith fmtSyslogTs st.base 7 w
  let (host, w) := generateHostname none w
  let (pid, w) := randintN 1 2000 w
  let (service, w) := pyChoice systemdServices "" w
  let events := [
    "Started " ++ service ++ ".",
    "Stopped " ++ service ++ ".",
    "Reloading " ++ service ++ ".",
    "Stopping " ++ service ++ "...",
    "Starting " ++ service ++ "...",
    service ++ ": Succeeded.",
    service ++ ": Main process exited, code=exited, status=0/SUCCESS"]
  let (message, w) := pyChoice events "" w
  (formatSyslog ts host "systemd" pid message, w)

/-- `_generate_kernel_event` (no pid bracket; process is the literal
`kernel`).  The whole message list is built (drawing for the templated
entries) before one entry is chosen. -/
def syslogKernelEvent (st : SyslogState) (w : World) : String × World :=
  let (ts, w) := generateTimestampWith fmtSyslogTs st.base 7 w
  let (host, w) := generateHostname none w
  let (iface2, w) := pyChoice ["eth0", "eth1", "ens33", "enp0s3"] "eth0" w
  let (mac2, w) := generateMacAddress w
  let (src2, w) := generateIpAddress true w
  let (dst2, w) := generateIpAddress true w
  let (iface3, w) := pyChoice ["eth0", "eth1"] "eth0" w
  let (mac3, w) := generateMacAddress w
  let (src3, w) := generateIpAddress false w
  let (dst3, w) := generateIpAddress true w
  let (dpt3, w) := generatePort false w
  let (usbNum, w) := randintN 2 10 w
  let events := [
    "Kernel logging (proc) stopped.",
    "Kernel log daemon terminating.",
    "OUT=" ++ iface2 ++ " MAC=" ++ mac2 ++ " SRC=" ++ src2 ++ " DST=" ++ dst2,
    "[UFW BLOCK] IN=" ++ iface3 ++ " OUT= MAC=" ++ mac3 ++ " SRC=" ++ src3 ++
      " DST=" ++ dst3 ++ " PROTO=TCP DPT=" ++ Nat.repr dpt3,
    "usb 1-1: new high-speed USB device number " ++ Nat.repr usbNum ++
      " using ehci-pci"]
  let (message, w) := pyChoice events "" w
  (ts ++ " " ++ host ++ " kernel: " ++ message, w)

/-- `_generate_network_event`: (message, process) pairs drawn jointly. -/
def syslogNetworkEvent (st : SyslogState) (w : World) : String × World :=
  let (ts, w) := generateTimestampWith fmtSyslogTs st.base 7 w
  let (host, w) := generateHostname none w
  let (pid, w) := randintN 1000 65535 w
  let (ip0, w) := generateIpAddress true w
  let (xid, w) := randintN 10000000 99999999 w
  let (ip1, w) := generateIpAddress true w
  let (connId, w) := randintN 1000 9999 w
  let events := [
    ("DHCPACK from " ++ ip0 ++ " (xid=0x" ++ hexLower xid ++ ")", "dhclient"),
    ("Server " ++ ip1 ++ " not responding, still trying", "NetworkManager"),
    ("link becomes ready", "NetworkManager"),
    ("Connection 'Wired connection 1' (" ++ Nat.repr connId ++
      ") successfully activated.", "NetworkManager")]
  let (pair, w) := pyChoice events ("", "") w
  (formatSyslog ts host pair.2 pid pair.1, w)

/-- The seven weighted event kinds of `SyslogGenerator.generate_log`. -/
inductive SyslogEvent
  | ssh | sudo | auth | cron | systemd | kern | network
deriving Repr, DecidableEq

/-- `SyslogGenerator.generate_log`. -/
def syslogGenerateLog (st : SyslogState) (w : World) : String × World :=
  let (ev, w) := weightedChoiceRun
    [(SyslogEvent.ssh, 30), (SyslogEvent.sudo, 15), (SyslogEvent.auth, 15),
     (SyslogEvent.cron, 10), (SyslogEvent.systemd, 15),
     (SyslogEvent.kern, 5), (SyslogEvent.network, 10)] SyslogEvent.ssh w
  match ev with
  | .ssh => syslogSshEvent st w
  | .sudo => syslogSudoEvent st w
  | .auth => syslogAuthEvent st w
  | .cron => syslogCronEvent st w
  | .systemd => syslogSystemdEvent st w
  | .kern => syslogKernelEvent st w
  | .network => syslogNetworkEvent st w

/-- `generate_logs(count)` (base implementation: `count` generate-one calls
in order). -/
def syslogGenerateLogs (st : SyslogState) : Nat → World → List String × World
  | 0, w => ([], w)
  | n + 1, w =>
    let (x, w) := syslogGenerateLog st w
    let (rest, w) := syslogGenerateLogs st n w
    (x :: rest, w)

/-! ## AuditdGenerator -/

/-- `self.executables`: executable path with its canonical argument list
(insertion order of the source dict). -/
def auditdExecutables : List (String × List String) :=
  [("/bin/ls", ["ls", "-la", "-lh", "-R"]),
   ("/bin/cat", ["cat", "/etc/passwd", "/var/log/syslog"]),
   ("/usr/bin/vim", ["vim", "/etc/hosts", "/etc/nginx/nginx.conf"]),
   ("/usr/bin/sudo", ["sudo", "-i", "systemctl restart nginx"]),
   ("/bin/ps", ["ps", "aux", "-ef"]),
   ("/usr/bin/netstat", ["netstat", "-tulpn", "-an"]),
   ("/usr/bin/ssh", ["ssh", "user@192.168.1.10"]),
   ("/bin/chmod", ["chmod", "755", "/tmp/script.sh"]),
   ("/bin/chown", ["chown", "root:root", "/etc/passwd"]),
   ("/usr/sbin/useradd", ["useradd", "-m", "newuser"]),
   ("/usr/sbin/userdel", ["userdel", "olduser"]),
   ("/bin/mount", ["mount", "/dev/sda1", "/mnt"]),
   ("/bin/systemctl", ["systemctl", "restart", "nginx"])]

/-- `self.syscalls`: syscall name to x86_64 number (insertion order). -/
def auditdSyscalls : List (String × Nat) :=
  [("open", 2), ("close", 3), ("read", 0), ("write", 1),
   ("execve", 59), ("fork", 57), ("kill", 62), ("chmod", 90),
   ("chown", 92), ("setuid", 105), ("setgid", 106), ("unlink", 87),
   ("connect", 42), ("accept", 43), ("bind", 49), ("socket", 41)]

/-- Instance state of an `AuditdGenerator`: base state plus the mutable
`sequence_counter`. -/
structure AuditdState where
  base : BaseState
  sequenceCounter : Nat
deriving Repr, DecidableEq

/-- `AuditdGenerator.__init__`: after the base init, the sequence counter
is drawn uniformly from `[100, 10000]`. -/
def auditdInit (seed : Option Int) (now : Int) (w : World) : AuditdState × World :=
  let (b, w) := baseInit seed now w
  let (c, w) := randintN 100 10000 w
  (⟨b, c⟩, w)

/-- `exe.split('/')[-1]`. -/
def basenameSlash (s : String) : String := (s.splitOn "/").getLastD s

/-- `_get_audit_timestamp`: epoch-second timestamp with a three-digit
millisecond suffix, plus the sequence number AFTER adding a fresh increment
drawn from `[1, 10]`.  Returns the (timestamp string, sequence) pair
exactly as the Python method returns its tuple, together with the updated
instance state. -/
def getAuditTimestamp (a : AuditdState) (w : World) :
    (String × Nat) × AuditdState × World :=
  let (dtv, w) := generateDatetime a.base 7 w
  let ts := epochSeconds dtv
  let (ms, w) := randintN 0 999 w
  let (inc, w) := randintN 1 10 w
  let seq := a.sequenceCounter + inc
  ((Int.repr ts ++ "." ++ pad3 ms, seq), { a with sequenceCounter := seq }, w)

/-- `_generate_syscall_event`. -/
def auditdSyscallEvent (a : AuditdState) (w : World) :
    String × AuditdState × World :=
  let (tsq, a, w) := getAuditTimestamp a w
  -- random.choice(list(self.syscalls.keys())) followed by the dict lookup;
  -- keys are unique, so drawing the pair is the same draw
  let (sc, w) := pyChoice auditdSyscalls ("open", 2) w
  let (success, w) := pyChoice ["yes", "yes", "yes", "no"] "yes" w
  let (exitCode, w) :=
    if success = "yes" then ((0 : Nat), w) else pyChoice [1, 13, 2] 1 w
  let (uid, w) := pyChoice [0, 1000, 1001, 1002] 0 w
  let (gid, w) := pyChoice [0, 1000, 1001, 1002] 0 w
  let euid := uid
  let egid := gid
  let (pid, w) := randintN 1000 65535 w
  let (ppid, w) := randintN 1 1000 w
  let (exe, w) := pyChoice (auditdExecutables.map Prod.fst) "/bin/ls" w
  let comm := basenameSlash exe
  let (a0, w) := randintN 0 4294967295 w
  let (a1, w) := randintN 0 4294967295 w
  let (a2, w) := randintN 0 4294967295 w
  let (a3, w) := randintN 0 4294967295 w
  let (items, w) := randintN 0 2 w
  let (key, w) := pyChoice ["commands", "access", "modify", "delete", "(null)"] "" w
  let parts := [
    "type=SYSCALL",
    "msg=audit(" ++ tsq.1 ++ ":" ++ Nat.repr tsq.2 ++ "):",
    "arch=c000003e",
    "syscall=" ++ Nat.repr sc.2,
    "success=" ++ success,
    "exit=" ++ Nat.repr exitCode,
    "a0=" ++ hexLower a0,
    "a1=" ++ hexLower a1,
    "a2=" ++ hexLower a2,
    "a3=" ++ hexLower a3,
    "items=" ++ Nat.repr items,
    "ppid=" ++ Nat.repr ppid,
    "pid=" ++ Nat.repr pid,
    "auid=" ++ Nat.repr uid,
    "uid=" ++ Nat.repr uid,
    "gid=" ++ Nat.repr gid,
    "euid=" ++ Nat.repr euid,
    "egid=" ++ Nat.repr egid,
    "comm=\"" ++ comm ++ "\"",
    "exe=\"" ++ exe ++ "\"",
    "key=\"" ++ key ++ "\""]
  (joinSep " " parts, a, w)

/-- `_generate_execve_event`. -/
def auditdExecveEvent (a : AuditdState) (w : World) :
    String × AuditdState × World :=
  let (tsq, a, w) := getAuditTimestamp a w
  let (exeArgs, w) := pyChoice auditdExecutables ("/bin/ls", ["ls"]) w
  let (r, w) := randintN 1 3 w
  let (cmdArgs, w) := pySample exeArgs.2 (min exeArgs.2.length r) "" w
  let argc := cmdArgs.length
  let argParts := (cmdArgs.enum.map fun p =>
    "a" ++ Nat.repr p.1 ++ "=\"" ++ p.2 ++ "\"")
  let parts := [
    "type=EXECVE",
    "msg=audit(" ++ tsq.1 ++ ":" ++ Nat.repr tsq.2 ++ "):",
    "argc=" ++ Nat.repr argc,
    joinSep " " argParts]
  (joinSep " " parts, a, w)

/-- `_generate_user_auth_event`. -/
def auditdUserAuthEvent (a : AuditdState) (w : World) :
    String × AuditdState × World :=
  let (tsq, a, w) := getAuditTimestamp a w
  let (user, w) := generateUsername w
  let (terminal, w) := pyChoice ["ssh", "pts/0", "pts/1", "tty1", ":0"] "ssh" w
  -- `'ssh' in terminal`: among this vocabulary only the entry "ssh" itself
  -- contains "ssh" as a substring
  let (addr, w) :=
    if terminal = "ssh" then generateIpAddress false w else ("?", w)
  let (success, w) := pyChoice ["yes", "yes", "yes", "no"] "yes" w
  let res := if success = "yes" then "success" else "failed"
  let (exe, w) := pyChoice ["/usr/sbin/sshd", "/bin/login", "/usr/bin/sudo"] "" w
  let (pid, w) := randintN 1000 65535 w
  let (uid, w) := pyChoice [0, 1000] 0 w
  let (auid, w) := randintN 1000 2000 w
  let parts := [
    "type=USER_AUTH",
    "msg=audit(" ++ tsq.1 ++ ":" ++ Nat.repr tsq.2 ++ "):",
    "pid=" ++ Nat.repr pid,
    "uid=" ++ Nat.repr uid,
    "auid=" ++ Nat.repr auid,
    "msg='op=PAM:authentication grantors=pam_unix acct=\"" ++ user ++
      "\" exe=\"" ++ exe ++ "\" hostname=" ++ addr ++ " addr=" ++ addr ++
      " terminal=" ++ terminal ++ " res=" ++ res ++ "'"]
  (joinSep " " parts, a, w)

/-- Command vocabulary of `_generate_user_cmd_event`. -/
def auditdUserCommands : List String :=
  ["/usr/bin/systemctl restart nginx", "/usr/bin/apt update",
   "/bin/cat /var/log/syslog", "/usr/sbin/iptables -L",
   "/usr/bin/docker ps -a", "/bin/journalctl -xe"]

/-- `_generate_user_cmd_event`. -/
def auditdUserCmdEvent (a : AuditdState) (w : World) :
    String × AuditdState × World :=
  let (tsq, a, w) := getAuditTimestamp a w
  let (user, w) := generateUsername w
  let (ptsNum, w) := randintN 0 5 w
  let terminal := "pts/" ++ Nat.repr ptsNum
  let (cmd, w) := pyChoice auditdUserCommands "" w
  let (pid, w) := randintN 1000 65535 w
  let (uid, w) := randintN 1000 2000 w
  let (auid, w) := randintN 1000 2000 w
  let parts := [
    "type=USER_CMD",
    "msg=audit(" ++ tsq.1 ++ ":" ++ Nat.repr tsq.2 ++ "):",
    "pid=" ++ Nat.repr pid,
    "uid=" ++ Nat.repr uid,
    "auid=" ++ Nat.repr auid,
    "msg='cwd=\"/home/" ++ user ++ "\" cmd=\"" ++ cmd ++ "\" terminal=" ++
      terminal ++ " res=success'"]
  (joinSep " " parts, a, w)

/-- `_generate_cred_event` (CRED_ACQ / CRED_DISP / CRED_REFR). -/
def auditdCredEvent (a : AuditdState) (w : World) :
    String × AuditdState × World :=
  let (tsq, a, w) := getAuditTimestamp a w
  let (eventType, w) := pyChoice ["CRED_ACQ", "CRED_DISP", "CRED_REFR"] "" w
  let (user, w) := generateUsername w
  let (terminal, w) := pyChoice
    ["pts/0", "pts/1", "pts/2", "pts/3", "pts/4", "pts/5", "ssh", ":0"] "" w
  let (exe, w) := pyChoice ["/usr/bin/sudo", "/usr/sbin/sshd", "/bin/su"] "" w
  let (res, w) := pyChoice ["success", "success", "success", "failed"] "" w
  let (pid, w) := randintN 1000 65535 w
  let (uid, w) := pyChoice [0, 1000] 0 w
  let (auid, w) := randintN 1000 2000 w
  let parts := [
    "type=" ++ eventType,
    "msg=audit(" ++ tsq.1 ++ ":" ++ Nat.repr tsq.2 ++ "):",
    "pid=" ++ Nat.repr pid,
    "uid=" ++ Nat.repr uid,
    "auid=" ++ Nat.repr auid,
    "msg='op=PAM:setcred grantors=pam_unix acct=\"" ++ user ++ "\" exe=\"" ++
      exe ++ "\" hostname=? addr=? terminal=" ++ terminal ++ " res=" ++ res ++ "'"]
  (joinSep " " parts, a, w)

/-- `_generate_login_event`. -/
def auditdLoginEvent (a : AuditdState) (w : World) :
    String × AuditdState × World :=
  let (tsq, a, w) := getAuditTimestamp a w
  let (_user, w) := generateUsername w
  let (uid, w) := randintN 1000 2000 w
  -- old_auid = unset iff random.random() > 0.5
  let (u, w) := pyRandom w
  let (oldAuid, w) :=
    if u > 100 then ("unset", w)
    else
      let (n, w) := randintN 1000 2000 w
      (Nat.repr n, w)
  let (terminal, w) := pyChoice
    ["pts/0", "pts/1", "pts/2", "pts/3", "pts/4", "pts/5", "/dev/tty1"] "" w
  let (res, w) := pyChoice ["success", "success", "failed"] "" w
  let (pid, w) := randintN 1000 65535 w
  let (ses, w) := randintN 1 999 w
  let parts := [
    "type=LOGIN",
    "msg=audit(" ++ tsq.1 ++ ":" ++ Nat.repr tsq.2 ++ "):",
    "pid=" ++ Nat.repr pid,
    "uid=" ++ Nat.repr uid,
    "old-auid=" ++ oldAuid,
    "auid=" ++ Nat.repr uid,
    "tty=" ++ terminal,
    "old-ses=unset",
    "ses=" ++ Nat.repr ses,
    "res=" ++ res]
  (joinSep " " parts, a, w)

/-- The six weighted event kinds of `AuditdGenerator.generate_log`. -/
inductive AuditdEvent
  | syscall | execve | userAuth | userCmd | cred | login
deriving Repr, DecidableEq

/-- `AuditdGenerator.generate_log`. -/
def auditdGenerateLog (a : AuditdState) (w : World) :
    String × AuditdState × World :=
  let (ev, w) := weightedChoiceRun
    [(AuditdEvent.syscall, 25), (AuditdEvent.execve, 25),
     (AuditdEvent.userAuth, 15), (AuditdEvent.userCmd, 15),
     (AuditdEvent.cred, 10), (AuditdEvent.login, 10)] AuditdEvent.syscall w
  match ev with
  | .syscall => auditdSyscallEvent a w
  | .execve => auditdExecveEvent a w
  | .userAuth => auditdUserAuthEvent a w
  | .userCmd => auditdUserCmdEvent a w
  | .cred => auditdCredEvent a w
  | .login => auditdLoginEvent a w

/-- `generate_logs(count)` for auditd, additionally pairing each produced
record with the instance's `sequence_counter` right after that call (the
exact value interpolated into the record's `msg=audit(...:seq):` header). -/
def auditdRun (a : AuditdState) : Nat → World → List (String × Nat) × AuditdState × World
  | 0, w => ([], a, w)
  | n + 1, w =>
    let p := auditdGenerateLog a w
    let q := auditdRun p.2.1 n p.2.2
    ((p.1, p.2.1.sequenceCounter) :: q.1, q.2)

/-- `generate_logs(count)` (the records alone, in call order). -/
def auditdGenerateLogs (a : AuditdState) (n : Nat) (w : World) :
    List String × AuditdState × World :=
  let (ps, a2, w) := auditdRun a n w
  (ps.map Prod.fst, a2, w)

/-! ## CEFFirewallGenerator -/

/-- `self.vendors`: vendor name, product, version list (insertion order). -/
def cefVendors : List (String × String × List String) :=
  [("Palo Alto Networks", "PAN-OS", ["9.0.0", "9.1.0", "10.0.0", "10.1.0"]),
   ("Cisco", "ASA", ["9.8", "9.12", "9.14"]),
   ("Fortinet", "FortiGate", ["6.0.0", "6.2.0", "6.4.0", "7.0.0"]),
   ("Check Point", "VPN-1 & FireWall-1", ["R80.40", "R81", "R81.10"]),
   ("pfSense", "pfSense", ["2.5.0", "2.6.0"])]

/-- `self.protocols` weight table. -/
def cefProtocols : List (String × Int) :=
  [("TCP", 50), ("UDP", 30), ("ICMP", 15), ("GRE", 3), ("ESP", 2)]

/-- `self.services`: service name, (port, native protocol). -/
def cefServices : List (String × Nat × String) :=
  [("http", 80, "TCP"), ("https", 443, "TCP"), ("ssh", 22, "TCP"),
   ("telnet", 23, "TCP"), ("smtp", 25, "TCP"), ("dns", 53, "UDP"),
   ("dhcp", 67, "UDP"), ("tftp", 69, "UDP"), ("pop3", 110, "TCP"),
   ("imap", 143, "TCP"), ("snmp", 161, "UDP"), ("ldap", 389, "TCP"),
   ("smb", 445, "TCP"), ("mysql", 3306, "TCP"), ("rdp", 3389, "TCP"),
   ("postgresql", 5432, "TCP"), ("mongodb", 27017, "TCP"), ("redis", 6379, "TCP")]

/-- `self.threat_categories`. -/
def cefThreatCategories : List String :=
  ["malware", "spyware", "vulnerability", "virus", "wildfire", "url-filtering",
   "data-filtering", "file-blocking", "scan", "flood"]

/-- `self.actions_allow`. -/
def cefActionsAllow : List String := ["allowed", "permit", "accept"]

/-- `self.actions_deny`. -/
def cefActionsDeny : List String := ["denied", "drop", "reject", "block"]

/-- Instance state of a `CEFFirewallGenerator`. -/
structure CEFState where
  base : BaseState
deriving Repr, DecidableEq

/-- `CEFFirewallGenerator.__init__`. -/
def cefInit (seed : Option Int) (now : Int) (w : World) : CEFState × World :=
  let (b, w) := baseInit seed now w
  (⟨b⟩, w)

/-- The argument tuple passed to `_format_cef`: seven header fields plus
the insertion-ordered extension pairs. -/
structure CEFArgs where
  vendor : String
  product : String
  version : String
  eventClassId : String
  name : String
  severity : Nat
  extensions : List (String × String)
deriving Repr, DecidableEq

/-- `_format_cef`: escape each extension value (backslash doubled, pipe
backslash-escaped), join `key=value` pairs with spaces in insertion order,
and pipe-join the `CEF:0` header with the seven fields and the extension
segment. -/
def formatCEF (args : CEFArgs) : String :=
  let extParts := args.extensions.map fun kv => kv.1 ++ "=" ++ escapeCEF kv.2
  joinSep "|"
    ["CEF:0", args.vendor, args.product, args.version, args.eventClassId,
     args.name, Nat.repr args.severity, joinSep " " extParts]

/-- Application names offered by the TRAFFIC event (duplicate `smtp` as in
the source). -/
def cefApps : List String :=
  ["web-browsing", "ssl", "dns", "ssh", "ftp", "smtp", "http", "smtp", "ms-rdp"]

/-- Zone names offered by the TRAFFIC event. -/
def cefZones : List String :=
  ["trust", "untrust", "dmz", "internal", "external", "vpn"]

/-- The optional-extension inclusion draw of the TRAFFIC event
(`random.random() > 0.5`), used once for `app` and once for the
`deviceInboundInterface`/`deviceOutboundInterface` PAIR. -/
def trafficOptDraw (u : Nat) : Bool := u > 100

/-- The optional-extension tail of `_generate_traffic_event`: one 50% draw
appends `app`, then ONE further 50% draw appends the
`deviceInboundInterface`/`deviceOutboundInterface` pair together. -/
def trafficOptionals (exts0 : List (String × String)) (w : World) :
    List (String × String) × World :=
  let uApp := pyRandom w
  let extsA :=
    if trafficOptDraw uApp.1 then
      let app := pyChoice cefApps "" uApp.2
      (exts0 ++ [("app", app.1)], app.2)
    else (exts0, uApp.2)
  let uZ := pyRandom extsA.2
  if trafficOptDraw uZ.1 then
    let zin := pyChoice cefZones "" uZ.2
    let zout := pyChoice cefZones "" zin.2
    (extsA.1 ++ [("deviceInboundInterface", zin.1), ("deviceOutboundInterface", zout.1)],
     zout.2)
  else (extsA.1, uZ.2)

/-- Field-drawing stage of `_generate_traffic_event` (everything before the
final `_format_cef` call). -/
def drawTraffic (st : CEFState) (w0 : World) : CEFArgs × World :=
  let vp := pyChoice cefVendors ("", "", []) w0
  let ver := pyChoice vp.1.2.2 "" vp.2
  -- allowed = random.random() > 0.3 (70% allowed)
  let ua := pyRandom ver.2
  let allowed := ua.1 > 60
  -- the allowed/denied branch draws action then severity and fixes the name
  let asn :=
    if allowed then
      let act := pyChoice cefActionsAllow "" ua.2
      let sev := pyChoice [1, 2, 3] 1 act.2
      ((act.1, sev.1, "traffic-allowed"), sev.2)
    else
      let act := pyChoice cefActionsDeny "" ua.2
      let sev := pyChoice [5, 6, 7] 5 act.2
      ((act.1, sev.1, "traffic-denied"), sev.2)
  -- src_internal = random.random() > 0.3
  let us := pyRandom asn.2
  let srcInternal := us.1 > 60
  let src := generateIpAddress srcInternal us.2
  let dst :=
    if srcInternal then
      let ud := pyRandom src.2
      if ud.1 > 60 then generateIpAddress false ud.2 else generateIpAddress true ud.2
    else generateIpAddress true src.2
  let proto := weightedChoiceRun cefProtocols "TCP" dst.2
  let ports :=
    if proto.1 = "TCP" ∨ proto.1 = "UDP" then
      let usvc := pyRandom proto.2
      let dpt :=
        if usvc.1 > 100 then
          let svc := pyChoice cefServices ("http", 80, "TCP") usvc.2
          if svc.1.2.2 = proto.1 then (svc.1.2.1, svc.2) else generatePort true svc.2
        else
          let uwk := pyRandom usvc.2
          generatePort (uwk.1 > 140) uwk.2
      let spt := generatePort false dpt.2
      ((spt.1, dpt.1), spt.2)
    else ((0, 0), proto.2)
  let outB := randintN 100 1000000 ports.2
  let inB := randintN 100 1000000 outB.2
  let dt := generateDatetime st.base 7 inB.2
  let direction := pyChoice ["0", "1"] "0" dt.2
  let connId := randintN 1 999999 direction.2
  let exts0 := [
    ("rt", fmtCEFTs dt.1), ("src", src.1), ("dst", dst.1),
    ("spt", Nat.repr ports.1.1), ("dpt", Nat.repr ports.1.2), ("proto", proto.1),
    ("act", asn.1.1), ("out", Nat.repr outB.1), ("in", Nat.repr inB.1),
    ("deviceDirection", direction.1), ("cn1", Nat.repr connId.1),
    ("cn1Label", "ConnectionID")]
  let opt := trafficOptionals exts0 connId.2
  (⟨vp.1.1, vp.1.2.1, ver.1, "TRAFFIC", asn.1.2.2, asn.1.2.1, opt.1⟩, opt.2)

/-- `_generate_traffic_event`. -/
def cefTrafficEvent (st : CEFState) (w : World) : String × World :=
  let args := drawTraffic st w
  (formatCEF args.1, args.2)

/-- Canonical threat-name strings of the THREAT event. -/
def cefThreatNames : List String :=
  ["Generic.Malware.Detected", "Trojan.Win32.Agent", "Exploit.CVE-2021-44228",
   "Malicious.URL.Detected", "Suspicious.Network.Traffic",
   "SQL.Injection.Attempt", "XSS.Attack.Detected", "Brute.Force.Attack",
   "Port.Scan.Detected", "DDoS.Attack.Detected"]

/-- Malicious URLs of the THREAT event. -/
def cefMaliciousUrls : List String :=
  ["http://malicious-site.com/payload.exe", "http://phishing-site.net/login.php",
   "http://c2-server.org/beacon", "http://exploit-kit.ru/landing"]

/-- Field-drawing stage of `_generate_threat_event`. -/
def drawThreat (st : CEFState) (w0 : World) : CEFArgs × World :=
  let vp := pyChoice cefVendors ("", "", []) w0
  let ver := pyChoice vp.1.2.2 "" vp.2
  let cat := pyChoice cefThreatCategories "" ver.2
  let tid := randintN 10000 99999 cat.2
  let sev := randintN 7 10 tid.2
  let src := generateIpAddress false sev.2
  let dst := generateIpAddress true src.2
  let proto := pyChoice ["TCP", "UDP", "ICMP"] "TCP" dst.2
  let ports :=
    if proto.1 = "TCP" ∨ proto.1 = "UDP" then
      let dpt := generatePort true proto.2
      let spt := generatePort false dpt.2
      ((spt.1, dpt.1), spt.2)
    else ((0, 0), proto.2)
  let dt := generateDatetime st.base 7 ports.2
  let tname := pyChoice cefThreatNames "" dt.2
  let act := pyChoice (cefActionsDeny ++ ["alert", "reset-both"]) "" tname.2
  let exts0 := [
    ("rt", fmtCEFTs dt.1), ("src", src.1), ("dst", dst.1),
    ("spt", Nat.repr ports.1.1), ("dpt", Nat.repr ports.1.2), ("proto", proto.1),
    ("act", act.1), ("cat", cat.1), ("cs1", tname.1),
    ("cs1Label", "ThreatName"), ("cn1", Nat.repr tid.1), ("cn1Label", "ThreatID"),
    ("deviceDirection", "0")]
  -- `'url' in threat_category or random.random() > 0.7`: Python
  -- short-circuits, so the draw happens only when the category does not
  -- contain "url" (among this vocabulary only "url-filtering" does)
  let extsU :=
    if cat.1 = "url-filtering" then
      let url := pyChoice cefMaliciousUrls "" act.2
      (exts0 ++ [("request", url.1)], url.2)
    else
      let uu := pyRandom act.2
      if uu.1 > 140 then
        let url := pyChoice cefMaliciousUrls "" uu.2
        (exts0 ++ [("request", url.1)], url.2)
      else (exts0, uu.2)
  -- `'malware' in threat_category or 'virus' in threat_category`: among
  -- this vocabulary exactly the entries "malware" and "virus"
  let extsM :=
    if cat.1 = "malware" ∨ cat.1 = "virus" then
      let fn := pyChoice ["payload.exe", "malware.dll", "trojan.js", "backdoor.sh"] "" extsU.2
      let fh := randHexString 64 fn.2
      (extsU.1 ++ [("fname", fn.1), ("fileHash", fh.1)], fh.2)
    else (extsU.1, extsU.2)
  (⟨vp.1.1, vp.1.2.1, ver.1, "THREAT", "threat-" ++ cat.1, sev.1, extsM.1⟩, extsM.2)

/-- `_generate_threat_event`. -/
def cefThreatEvent (st : CEFState) (w : World) : String × World :=
  let args := drawThreat st w
  (formatCEF args.1, args.2)

/-- The eight (event id, name, severity) triples of the SYSTEM event. -/
def cefSystemEvents : List (String × String × Nat) :=
  [("admin-login", "Administrator login", 5),
   ("admin-logout", "Administrator logout", 3),
   ("config-change", "Configuration changed", 6),
   ("system-start", "System started", 4),
   ("system-shutdown", "System shutdown", 4),
   ("ha-failover", "HA failover occurred", 8),
   ("license-expire", "License expiring soon", 7),
   ("disk-space-low", "Disk space low", 7)]

/-- The per-event-id message of the SYSTEM event, given the two numeric
draws embedded in the license/disk messages. -/
def cefSystemMessage (eventId : String) (days pct : Nat) : String :=
  if eventId = "admin-login" then "Administrator logged in from management interface"
  else if eventId = "admin-logout" then "Administrator logged out"
  else if eventId = "config-change" then "Security policy modified"
  else if eventId = "system-start" then "Firewall system started successfully"
  else if eventId = "system-shutdown" then "Firewall system shutting down"
  else if eventId = "ha-failover" then "HA failover to secondary device"
  else if eventId = "license-expire" then
    "License will expire in " ++ Nat.repr days ++ " days"
  else "Disk space at " ++ Nat.repr pct ++ "% capacity"

/-- Field-drawing stage of `_generate_system_event`.  The whole message
dict is built (drawing both embedded numbers) before the lookup. -/
def drawSystem (st : CEFState) (w0 : World) : CEFArgs × World :=
  let vp := pyChoice cefVendors ("", "", []) w0
  let ver := pyChoice vp.1.2.2 "" vp.2
  let ev := pyChoice cefSystemEvents ("", "", 0) ver.2
  let dt := generateDatetime st.base 7 ev.2
  let dvc := generateIpAddress true dt.2
  let dvchost := generateHostname (some "fw") dvc.2
  let exts0 := [("rt", fmtCEFTs dt.1), ("dvc", dvc.1), ("dvchost", dvchost.1)]
  let extsA :=
    if ev.1.1 = "admin-login" ∨ ev.1.1 = "admin-logout" ∨ ev.1.1 = "config-change" then
      let su := pyChoice ["admin", "firewall-admin", "security-admin"] "" dvchost.2
      let sip := generateIpAddress true su.2
      (exts0 ++ [("suser", su.1), ("src", sip.1)], sip.2)
    else (exts0, dvchost.2)
  let days := randintN 1 30 extsA.2
  let pct := randintN 85 95 days.2
  let exts := extsA.1 ++ [("msg", cefSystemMessage ev.1.1 days.1 pct.1)]
  (⟨vp.1.1, vp.1.2.1, ver.1, "SYSTEM", ev.1.2.1, ev.1.2.2, exts⟩, pct.2)

/-- `_generate_system_event`. -/
def cefSystemEvent (st : CEFState) (w : World) : String × World :=
  let args := drawSystem st w
  (formatCEF args.1, args.2)

/-- The dispatch stage of `CEFFirewallGenerator.generate_log`: the drawn
arguments of whichever event class is selected. -/
def cefDraw (st : CEFState) (w : World) : CEFArgs × World :=
  let et := weightedChoiceRun
    [("TRAFFIC", 70), ("THREAT", 20), ("SYSTEM", 10)] "TRAFFIC" w
  if et.1 = "TRAFFIC" then drawTraffic st et.2
  else if et.1 = "THREAT" then drawThreat st et.2
  else drawSystem st et.2

/-- `CEFFirewallGenerator.generate_log`. -/
def cefGenerateLog (st : CEFState) (w : World) : String × World :=
  let args := cefDraw st w
  (formatCEF args.1, args.2)

/-- `generate_logs(count)` (base implementation). -/
def cefGenerateLogs (st : CEFState) : Nat → World → List String × World
  | 0, w => ([], w)
  | n + 1, w =>
    let (x, w) := cefGenerateLog st w
    let (rest, w) := cefGenerateLogs st n w
    (x :: rest, w)

/-! ## WindowsSecurityGenerator -/

/-- `self.domains`. -/
def winDomains : List String := ["CORP", "ENTERPRISE", "DOMAIN", "CONTOSO"]

/-- `self.computer_prefixes`. -/
def winComputerPrefixes : List String := ["DC", "WS", "SRV", "FS", "EXCH", "SQL", "APP"]

/-- `self.windows_users`. -/
def winUsers : List String :=
  ["Administrator", "admin", "john.doe", "jane.smith", "service_account",
   "backup_admin", "sql_service", "iis_apppool", "system", "network_service"]

/-- `self.logon_types` lookup. -/
def winLogonTypeName (n : Nat) : String :=
  if n = 2 then "Interactive" else if n = 3 then "Network"
  else if n = 4 then "Batch" else if n = 5 then "Service"
  else if n = 7 then "Unlock" else if n = 8 then "NetworkCleartext"
  else if n = 10 then "RemoteInteractive" else if n = 11 then "CachedInteractive"
  else ""

/-- `self.security_groups`. -/
def winSecurityGroups : List String :=
  ["Domain Admins", "Enterprise Admins", "Administrators",
   "Remote Desktop Users", "Backup Operators", "Account Operators",
   "Server Operators"]

/-- `self.failure_reasons` (the six canonical 4625 reasons, in order). -/
def winFailureReasons : List String :=
  ["Unknown user name or bad password", "Account currently disabled",
   "Account logon time restriction violation",
   "User not allowed to logon at this computer", "Password has expired",
   "Account locked out"]

/-- The fixed 4625 failure-reason → (Status, SubStatus) table. -/
def winStatusCodes : List (String × String × String) :=
  [("Unknown user name or bad password", "0xC000006D", "0xC000006A"),
   ("Account currently disabled", "0xC0000072", "0x0"),
   ("Account logon time restriction violation", "0xC000006F", "0x0"),
   ("User not allowed to logon at this computer", "0xC0000070", "0x0"),
   ("Password has expired", "0xC0000071", "0x0"),
   ("Account locked out", "0xC0000234", "0xC0000234")]

/-- Lookup in `winStatusCodes` (`status_codes[failure_reason]`). -/
def winStatusFor (reason : String) : String × String :=
  ((winStatusCodes.find? (fun t => t.1 = reason)).map Prod.snd).getD ("", "")

/-- The attack-style usernames substituted by the 4625 event. -/
def winAttackUsers : List String := ["admin", "test", "guest", "user", "sqlserver"]

/-- The draw deciding whether 4625 substitutes an attack-style username
(`random.random() > 0.7`). -/
def winAttackSubstituteDraw (u : Nat) : Bool := u > 140

/-- Instance state of a `WindowsSecurityGenerator`. -/
structure WinState where
  base : BaseState
deriving Repr, DecidableEq

/-- `WindowsSecurityGenerator.__init__`. -/
def winInit (seed : Option Int) (now : Int) (w : World) : WinState × World :=
  let (b, w) := baseInit seed now w
  (⟨b⟩, w)

/-- `_get_windows_timestamp`. -/
def getWindowsTimestamp (st : WinState) (w : World) : String × World :=
  let (dt, w) := generateDatetime st.base 7 w
  (fmtWinTs dt, w)

/-- `_get_domain_user`. -/
def getDomainUser (w : World) : (String × String) × World :=
  let (domain, w) := pyChoice winDomains "" w
  let (user, w) := pyChoice winUsers "" w
  ((domain, user), w)

/-- `_get_computer_name`: `{prefix}-{randint(1,100):03d}`. -/
def getComputerName (w : World) : String × World :=
  let (p, w) := pyChoice winComputerPrefixes "" w
  let (n, w) := randintN 1 100 w
  (p ++ "-" ++ pad3 n, w)

/-- `_format_event`:
`EventID=.. Level=.. Computer=.. TimeGenerated=.. K1: V1; K2: V2; ...`. -/
def formatWinEvent (eventId : Nat) (level computer timestamp : String)
    (fields : List (String × String)) : String :=
  "EventID=" ++ Nat.repr eventId ++ " Level=" ++ level ++ " Computer=" ++
    computer ++ " TimeGenerated=" ++ timestamp ++ " " ++
    joinSep "; " (fields.map fun kv => kv.1 ++ ": " ++ kv.2)

/-- `_generate_4624_successful_logon`. -/
def win4624Event (st : WinState) (w : World) : String × World :=
  let (timestamp, w) := getWindowsTimestamp st w
  let (computer, w) := getComputerName w
  let (du, w) := getDomainUser w
  let (logonType, w) := weightedChoiceRun
    [(2, 20), (3, 30), (10, 30), (5, 10), (4, 10)] 2 w
  let logonTypeName := winLogonTypeName logonType
  let (uIp, w) := pyRandom w
  let (srcIp, w) := generateIpAddress (uIp > 60) w
  let (uSc, w) := pyRandom w
  let (srcComputer, w) := if uSc > 100 then getComputerName w else ("-", w)
  let (lidN, w) := randintN 1048576 16777215 w
  let logonId := "0x" ++ hexUpper lidN
  let (subjName, w) := pyChoice ["SYSTEM", "LOCAL SERVICE", du.2] "" w
  let (subjLidN, w) := randintN 4096 65535 w
  let (srcPort, w) := randintN 49152 65535 w
  let (authPkg, w) := pyChoice ["Kerberos", "NTLM", "Negotiate"] "" w
  let fields := [
    ("Subject_Account_Name", subjName),
    ("Subject_Account_Domain", du.1),
    ("Subject_Logon_ID", "0x" ++ hexUpper subjLidN),
    ("Target_Account_Name", du.2),
    ("Target_Account_Domain", du.1),
    ("Target_Logon_ID", logonId),
    ("Logon_Type", Nat.repr logonType ++ " (" ++ logonTypeName ++ ")"),
    ("Source_Network_Address", srcIp),
    ("Source_Port", Nat.repr srcPort),
    ("Workstation_Name", srcComputer),
    ("Authentication_Package", authPkg)]
  (formatWinEvent 4624 "Information" computer timestamp fields, w)

/-- Field-drawing stage of `_generate_4625_failed_logon`: returns the
timestamp, computer name and the ordered field pairs. -/
def draw4625 (st : WinState) (w : World) :
    (String × String × List (String × String)) × World :=
  let ts := getWindowsTimestamp st w
  let comp := getComputerName ts.2
  let du := getDomainUser comp.2
  let us := pyRandom du.2
  let user :=
    if winAttackSubstituteDraw us.1 then pyChoice winAttackUsers "" us.2
    else (du.1.2, us.2)
  let lt := weightedChoiceRun [(2, 20), (3, 40), (10, 40)] 2 user.2
  let fr := pyChoice winFailureReasons "" lt.2
  let sc := winStatusFor fr.1
  let sip := generateIpAddress false fr.2
  let sport := randintN 49152 65535 sip.2
  let ws := getComputerName sport.2
  let fields := [
    ("Target_Account_Name", user.1),
    ("Target_Account_Domain", du.1.1),
    ("Failure_Reason", fr.1),
    ("Status", sc.1),
    ("Sub_Status", sc.2),
    ("Logon_Type", Nat.repr lt.1 ++ " (" ++ winLogonTypeName lt.1 ++ ")"),
    ("Source_Network_Address", sip.1),
    ("Source_Port", Nat.repr sport.1),
    ("Workstation_Name", ws.1)]
  ((ts.1, comp.1, fields), ws.2)

/-- `_generate_4625_failed_logon`. -/
def win4625Event (st : WinState) (w : World) : String × World :=
  let d := draw4625 st w
  (formatWinEvent 4625 "Information" d.1.2.1 d.1.1 d.1.2.2, d.2)

/-- `_generate_4634_logoff`. -/
def win4634Event (st : WinState) (w : World) : String × World :=
  let (timestamp, w) := getWindowsTimestamp st w
  let (computer, w) := getComputerName w
  let (du, w) := getDomainUser w
  let (logonType, w) := pyChoice [2, 3, 10] 2 w
  let (lidN, w) := randintN 1048576 16777215 w
  let fields := [
    ("Account_Name", du.2),
    ("Account_Domain", du.1),
    ("Logon_ID", "0x" ++ hexUpper lidN),
    ("Logon_Type", Nat.repr logonType ++ " (" ++ winLogonTypeName logonType ++ ")")]
  (formatWinEvent 4634 "Information" computer timestamp fields, w)

/-- Privilege vocabulary of the 4672 event. -/
def winPrivileges : List String :=
  ["SeSecurityPrivilege", "SeBackupPrivilege", "SeRestorePrivilege",
   "SeTakeOwnershipPrivilege", "SeDebugPrivilege",
   "SeSystemEnvironmentPrivilege", "SeLoadDriverPrivilege",
   "SeImpersonatePrivilege"]

/-- `_generate_4672_special_privileges`. -/
def win4672Event (st : WinState) (w : World) : String × World :=
  let (timestamp, w) := getWindowsTimestamp st w
  let (computer, w) := getComputerName w
  let (du, w) := getDomainUser w
  let (uAdm, w) := pyRandom w
  let user := if uAdm > 100 then "Administrator" else du.2
  let (k, w) := randintN 3 6 w
  let (selectedPrivs, w) := pySample winPrivileges k "" w
  let (lidN, w) := randintN 1048576 16777215 w
  let fields := [
    ("Account_Name", user),
    ("Account_Domain", du.1),
    ("Logon_ID", "0x" ++ hexUpper lidN),
    ("Privileges", joinSep ", " selectedPrivs)]
  (formatWinEvent 4672 "Information" computer timestamp fields, w)

/-- `_generate_4720_user_created`. -/
def win4720Event (st : WinState) (w : World) : String × World :=
  let (timestamp, w) := getWindowsTimestamp st w
  let (computer, w) := getComputerName w
  let (du, w) := getDomainUser w
  let (creator, w) := pyChoice ["Administrator", "admin", "hr_admin"] "" w
  let (fn, w) := fakerFirstName w
  let (ln, w) := fakerLastName w
  let newUser := strLower fn ++ "." ++ strLower ln
  let (s1, w) := randintN 1000000000 9999999999 w
  let (s2, w) := randintN 100000 999999 w
  let (s3, w) := randintN 100000 999999 w
  let (s4, w) := randintN 1000 9999 w
  let fields := [
    ("Subject_Account_Name", creator),
    ("Subject_Account_Domain", du.1),
    ("Target_Account_Name", newUser),
    ("Target_Account_Domain", du.1),
    ("Target_Security_ID", "S-1-5-21-" ++ Nat.repr s1 ++ "-" ++ Nat.repr s2 ++
      "-" ++ Nat.repr s3 ++ "-" ++ Nat.repr s4)]
  (formatWinEvent 4720 "Information" computer timestamp fields, w)

/-- `_generate_4732_member_added`. -/
def win4732Event (st : WinState) (w : World) : String × World :=
  let (timestamp, w) := getWindowsTimestamp st w
  let (computer, w) := getComputerName w
  let (du, w) := getDomainUser w
  let (adminUser, w) := pyChoice ["Administrator", "admin"] "" w
  let (group, w) := pyChoice winSecurityGroups "" w
  let fields := [
    ("Subject_Account_Name", adminUser),
    ("Subject_Account_Domain", du.1),
    ("Member_Name", du.1 ++ "\\" ++ du.2),
    ("Target_Group_Name", group),
    ("Target_Group_Domain", du.1)]
  (formatWinEvent 4732 "Information" computer timestamp fields, w)

/-- `_generate_4740_account_locked`. -/
def win4740Event (st : WinState) (w : World) : String × World :=
  let (timestamp, w) := getWindowsTimestamp st w
  let (computer, w) := getComputerName w
  let (du, w) := getDomainUser w
  let (srcComputer, w) := getComputerName w
  let fields := [
    ("Target_Account_Name", du.2),
    ("Target_Account_Domain", du.1),
    ("Caller_Computer_Name", srcComputer)]
  (formatWinEvent 4740 "Warning" computer timestamp fields, w)

/-- `_generate_4768_kerberos_tgt`. -/
def win4768Event (st : WinState) (w : World) : String × World :=
  let (timestamp, w) := getWindowsTimestamp st w
  let (computer, w) := getComputerName w
  let (du, w) := getDomainUser w
  -- success = random.random() > 0.1 (90% success)
  let (uSucc, w) := pyRandom w
  let success := uSucc > 20
  let (clientAddr, w) := generateIpAddress true w
  let (resultCode, w) :=
    if success then ("0x0", w) else pyChoice ["0x6", "0x12", "0x17", "0x18"] "" w
  let (encType, w) := pyChoice ["0x12", "0x17", "0x18"] "" w
  let fields := [
    ("Account_Name", du.2),
    ("Account_Domain", du.1),
    ("Client_Address", clientAddr),
    ("Ticket_Options", "0x40810010"),
    ("Result_Code", resultCode),
    ("Ticket_Encryption_Type", encType)]
  (formatWinEvent 4768 "Information" computer timestamp fields, w)

/-- `_generate_4776_ntlm_auth`. -/
def win4776Event (st : WinState) (w : World) : String × World :=
  let (timestamp, w) := getWindowsTimestamp st w
  let (computer, w) := getComputerName w
  let (du, w) := getDomainUser w
  -- success = random.random() > 0.15 (85% success)
  let (uSucc, w) := pyRandom w
  let success := uSucc > 30
  let (srcWs, w) := getComputerName w
  let (errCode, w) :=
    if success then ("0x0", w)
    else pyChoice ["0xC0000064", "0xC000006A", "0xC0000234"] "" w
  let fields := [
    ("Authentication_Package", "MICROSOFT_AUTHENTICATION_PACKAGE_V1_0"),
    ("Logon_Account", du.2),
    ("Source_Workstation", srcWs),
    ("Error_Code", errCode)]
  (formatWinEvent 4776 "Information" computer timestamp fields, w)

/-- Share vocabulary of the 5140 event (each entry starts with two literal
backslashes). -/
def winShares : List String :=
  ["\\\\*\\C$", "\\\\*\\ADMIN$", "\\\\*\\IPC$", "\\\\*\\SYSVOL",
   "\\\\*\\NETLOGON", "\\\\*\\Shared", "\\\\*\\Users"]

/-- `_generate_5140_share_access`. -/
def win5140Event (st : WinState) (w : World) : String × World :=
  let (timestamp, w) := getWindowsTimestamp st w
  let (computer, w) := getComputerName w
  let (du, w) := getDomainUser w
  let (srcAddr, w) := generateIpAddress true w
  let (srcPort, w) := randintN 49152 65535 w
  let (share, w) := pyChoice winShares "" w
  let (mask, w) := pyChoice ["0x1", "0x2", "0x3"] "" w
  let fields := [
    ("Subject_Account_Name", du.2),
    ("Subject_Account_Domain", du.1),
    ("Source_Address", srcAddr),
    ("Source_Port", Nat.repr srcPort),
    ("Share_Name", share),
    ("Access_Mask", mask)]
  (formatWinEvent 5140 "Information" computer timestamp fields, w)

/-- Application paths of the 5156 event (single literal backslashes). -/
def winAppPaths : List String :=
  ["\\device\\harddiskvolume2\\windows\\system32\\svchost.exe",
   "\\device\\harddiskvolume2\\program files\\microsoft sql server\\mssql\\binn\\sqlservr.exe",
   "\\device\\harddiskvolume2\\windows\\system32\\dns.exe",
   "\\device\\harddiskvolume2\\windows\\explorer.exe"]

/-- `_generate_5156_fw_allowed`. -/
def win5156Event (st : WinState) (w : World) : String × World :=
  let (timestamp, w) := getWindowsTimestamp st w
  let (computer, w) := getComputerName w
  let (protocol, w) := pyChoice [6, 17] 6 w
  let (app, w) := pyChoice winAppPaths "" w
  let (direction, w) := pyChoice ["Inbound", "Outbound"] "" w
  let (srcAddr, w) := generateIpAddress true w
  let (srcPort, w) := randintN 1024 65535 w
  let (uDst, w) := pyRandom w
  let (dstAddr, w) := generateIpAddress (uDst > 100) w
  let (dstPort, w) := generatePort true w
  let fields := [
    ("Application", app),
    ("Direction", direction),
    ("Source_Address", srcAddr),
    ("Source_Port", Nat.repr srcPort),
    ("Destination_Address", dstAddr),
    ("Destination_Port", Nat.repr dstPort),
    ("Protocol", Nat.repr protocol)]
  (formatWinEvent 5156 "Information" computer timestamp fields, w)

/-- `_generate_5157_fw_blocked`. -/
def win5157Event (st : WinState) (w : World) : String × World :=
  let (timestamp, w) := getWindowsTimestamp st w
  let (computer, w) := getComputerName w
  let (protocol, w) := pyChoice [6, 17] 6 w
  let (srcAddr, w) := generateIpAddress false w
  let (srcPort, w) := randintN 1024 65535 w
  let (dstAddr, w) := generateIpAddress true w
  let (dstPort, w) := generatePort true w
  let fields := [
    ("Application", "System"),
    ("Direction", "Inbound"),
    ("Source_Address", srcAddr),
    ("Source_Port", Nat.repr srcPort),
    ("Destination_Address", dstAddr),
    ("Destination_Port", Nat.repr dstPort),
    ("Protocol", Nat.repr protocol)]
  (formatWinEvent 5157 "Information" computer timestamp fields, w)

/-- The event weight table of `WindowsSecurityGenerator.generate_log`. -/
def winEventWeights : List (Nat × Int) :=
  [(4624, 35), (4625, 15), (4634, 20), (4672, 5), (4720, 2),
   (4732, 3), (4740, 2), (4768, 5), (4776, 5), (5140, 5),
   (5156, 2), (5157, 1)]

/-- `WindowsSecurityGenerator.generate_log`. -/
def winGenerateLog (st : WinState) (w : World) : String × World :=
  let (eventId, w) := weightedChoiceRun winEventWeights 4624 w
  if eventId = 4624 then win4624Event st w
  else if eventId = 4625 then win4625Event st w
  else if eventId = 4634 then win4634Event st w
  else if eventId = 4672 then win4672Event st w
  else if eventId = 4720 then win4720Event st w
  else if eventId = 4732 then win4732Event st w
  else if eventId = 4740 then win4740Event st w
  else if eventId = 4768 then win4768Event st w
  else if eventId = 4776 then win4776Event st w
  else if eventId = 5140 then win5140Event st w
  else if eventId = 5156 then win5156Event st w
  else win5157Event st w

/-- `generate_logs(count)` (base implementation). -/
def winGenerateLogs (st : WinState) : Nat → World → List String × World
  | 0, w => ([], w)
  | n + 1, w =>
    let (x, w) := winGenerateLog st w
    let (rest, w) := winGenerateLogs st n w
    (x :: rest, w)

/-! ## VerifonePOSGenerator -/

/-- `self.store_ids = list(range(100, 800))`. -/
def verifoneStoreIds : List Nat := List.range' 100 700

/-- `self.remote_ips = [f"192.168.31.{i}" for i in range(100, 210)]`. -/
def verifoneRemoteIps : List String :=
  (List.range' 100 110).map fun i => "192.168.31." ++ Nat.repr i

/-- `self.usernames`. -/
def verifoneUsernames : List String :=
  ["mbsusr", "proctor", "pdipos", "archiver", "admin", "cashier",
   "manager", "supervisor", "sysadmin", "posuser", "backoffice"]

/-- `self.api_actions`. -/
def verifoneApiActions : List String :=
  ["cfdcposrequest", "vtlogpdlist", "validate", "vAppInfo", "vtransset",
   "vrubyrept", "vgrouplist", "vreportpdlist", "vMovement", "vsalestotals",
   "vitemlist", "vtenderlist", "vauditreport", "vlogin", "vlogout"]

/-- `self.auth_actions`. -/
def verifoneAuthActions : List String :=
  ["validate", "vlogin", "vlogout", "authenticate", "authorization"]

/-- `self.register_ids = list(range(0, 10))`. -/
def verifoneRegisterIds : List Nat := List.range 10

/-- `self.log_level`. -/
def verifoneLogLevel : String := "WARN"

/-- `self.category`. -/
def verifoneCategory : String := "security"

/-- Instance state of a `VerifonePOSGenerator`: base state plus the 200
store IPs drawn at construction. -/
structure VerifoneState where
  base : BaseState
  storeIps : List String
deriving Repr, DecidableEq

/-- The 200-element store-IP comprehension of `VerifonePOSGenerator.__init__`:
each entry draws `172.{randint(17,25)}.{randint(1,254)}.{randint(1,254)}`. -/
def verifoneStoreIpsGo : Nat → World → List String × World
  | 0, w => ([], w)
  | n + 1, w =>
    let (a, w) := randintN 17 25 w
    let (b, w) := randintN 1 254 w
    let (c, w) := randintN 1 254 w
    let (rest, w) := verifoneStoreIpsGo n w
    (("172." ++ Nat.repr a ++ "." ++ Nat.repr b ++ "." ++ Nat.repr c) :: rest, w)

/-- `VerifonePOSGenerator.__init__`. -/
def verifoneInit (seed : Option Int) (now : Int) (w : World) :
    VerifoneState × World :=
  let (b, w) := baseInit seed now w
  let (ips, w) := verifoneStoreIpsGo 200 w
  (⟨b, ips⟩, w)

/-- The `"{ts}     - Store {id} - {ip} - "` line prefix every Verifone
record starts with. -/
def verifonePrefix (ts : Int) (storeId : Nat) (storeIp : String) : String :=
  fmtVerifoneTs ts ++ "     - " ++ "Store " ++ Nat.repr storeId ++ " - " ++
    storeIp ++ " - "

/-- The five failure-reason suffixes of `_generate_user_auth_log`. -/
def verifoneFailureReasons : List String :=
  [" - Invalid Credentials", " - Account Locked", " - Expired Password",
   " - Insufficient Privileges", " - Session Timeout"]

/-- `_generate_user_auth_log(timestamp)`. -/
def verifoneUserAuthLog (st : VerifoneState) (ts : Int) (w : World) :
    String × World :=
  let sid := pyChoice verifoneStoreIds 100 w
  let sip := pyChoice st.storeIps "" sid.2
  let un := pyChoice verifoneUsernames "" sip.2
  let act := pyChoice verifoneAuthActions "" un.2
  let reg := pyChoice verifoneRegisterIds 0 act.2
  let rip := pyChoice verifoneRemoteIps "" reg.2
  -- 80% success: status = PASSED iff random.random() < 0.8
  let u := pyRandom rip.2
  let sm :=
    if u.1 < 160 then (("PASSED", ""), u.2)
    else
      let m := pyChoice verifoneFailureReasons "" u.2
      (("FAILED", m.1), m.2)
  (verifonePrefix ts sid.1 sip.1 ++ verifoneLogLevel ++ "  " ++
    verifoneCategory ++ " - " ++ "USER: " ++ un.1 ++ " - " ++ act.1 ++
    " - " ++ sm.1.1 ++ " - HTTP REQUEST - " ++ "Register ID# " ++
    Nat.repr reg.1 ++ " - REMOTE IP# " ++ rip.1 ++ " - " ++ sm.1.2 ++
    "\\012", sm.2)

/-- `_generate_api_request_log(timestamp)`. -/
def verifoneApiRequestLog (st : VerifoneState) (ts : Int) (w : World) :
    String × World :=
  let sid := pyChoice verifoneStoreIds 100 w
  let sip := pyChoice st.storeIps "" sid.2
  let act := pyChoice verifoneApiActions "" sip.2
  let reg := pyChoice verifoneRegisterIds 0 act.2
  let rip := pyChoice verifoneRemoteIps "" reg.2
  -- 95% success: status = PASSED iff random.random() < 0.95
  let u := pyRandom rip.2
  let status := if u.1 < 190 then "PASSED" else "FAILED"
  (verifonePrefix ts sid.1 sip.1 ++ verifoneLogLevel ++ "  " ++
    verifoneCategory ++ " - " ++ act.1 ++ " - " ++ status ++
    " - HTTP REQUEST - " ++ "Register ID# " ++ Nat.repr reg.1 ++
    " - REMOTE IP# " ++ rip.1 ++ " - \\012", u.2)

/-- `_generate_api_request_with_user_log(timestamp)` (actions restricted to
the API actions that are not auth actions). -/
def verifoneApiWithUserLog (st : VerifoneState) (ts : Int) (w : World) :
    String × World :=
  let sid := pyChoice verifoneStoreIds 100 w
  let sip := pyChoice st.storeIps "" sid.2
  let un := pyChoice verifoneUsernames "" sip.2
  let act := pyChoice
    (verifoneApiActions.filter fun a => a ∉ verifoneAuthActions) "" un.2
  let reg := pyChoice verifoneRegisterIds 0 act.2
  let rip := pyChoice verifoneRemoteIps "" reg.2
  -- 95% success: status = PASSED iff random.random() < 0.95
  let u := pyRandom rip.2
  let status := if u.1 < 190 then "PASSED" else "FAILED"
  (verifonePrefix ts sid.1 sip.1 ++ verifoneLogLevel ++ "  " ++
    verifoneCategory ++ " - " ++ "USER: " ++ un.1 ++ " - " ++ act.1 ++
    " - " ++ status ++ " - HTTP REQUEST - " ++ "Register ID# " ++
    Nat.repr reg.1 ++ " - REMOTE IP# " ++ rip.1 ++ " - \\012", u.2)

/-- `_generate_pam_ssh_log(timestamp)`: the message list is built (drawing
the templated entries, including two `datetime.now().strftime('%m-%d')`
live-clock reads) before one entry is chosen. -/
def verifonePamSshLog (st : VerifoneState) (ts now : Int) (w : World) :
    String × World :=
  let sid := pyChoice verifoneStoreIds 100 w
  let sip := pyChoice st.storeIps "" sid.2
  let username := "archiver"
  let rip := pyChoice verifoneRemoteIps "" sip.2
  let t2 := randintN 100 200 rip.2
  let t3 := randintN 100 200 t2.2
  let pid5 := randintN 5000 6000 t3.2
  let logTypes := [
    "pam_unix(sshd:session): session opened for user " ++ username ++ " by (uid=0)",
    "pam_unix(sshd:session): session closed for user " ++ username,
    "Remote request " ++ rip.1 ++ ": scp -t /cygdrive/d/ftproot/TopazLogs/topaz" ++
      Nat.repr t2.1 ++ "-" ++ fmtMonthDay now ++ "T09-audit.gz",
    "Remote request " ++ rip.1 ++ ": scp -t /cygdrive/d/ftproot/TopazLogs/topaz" ++
      Nat.repr t3.1 ++ "-" ++ fmtMonthDay now ++ "T09-ossec.log.gz",
    "Remote request " ++ rip.1 ++ ": MKDIR /cygdrive/d/ftproot/TopazLogs",
    "HISTORY: PID=" ++ Nat.repr pid5.1 ++ " UID=48 /home/archiver/bin/cmd.sh"]
  let message := pyChoice logTypes "" pid5.2
  (verifonePrefix ts sid.1 sip.1 ++ message.1, message.2)

/-- Error vocabulary of `_generate_ssh_error_log`. -/
def verifoneSshErrors : List String :=
  ["error: Could not load host key: /etc/openssh/ssh_host_rsa_key",
   "error: Could not load host certificate: /etc/openssh/ssh_host_rsa_key-cert.pub",
   "error: SSH connection failed - timeout",
   "error: Authentication method not supported"]

/-- `_generate_ssh_error_log(timestamp)`. -/
def verifoneSshErrorLog (st : VerifoneState) (ts : Int) (w : World) :
    String × World :=
  let sid := pyChoice verifoneStoreIds 100 w
  let sip := pyChoice st.storeIps "" sid.2
  let message := pyChoice verifoneSshErrors "" sip.2
  (verifonePrefix ts sid.1 sip.1 ++ message.1, message.2)

/-- `_generate_movement_log(timestamp)`. -/
def verifoneMovementLog (st : VerifoneState) (ts : Int) (w : World) :
    String × World :=
  let sid := pyChoice verifoneStoreIds 100 w
  let sip := pyChoice st.storeIps "" sid.2
  (verifonePrefix ts sid.1 sip.1 ++ verifoneLogLevel ++ "  " ++
    verifoneCategory ++ " - " ++
    "vMovement - PASSED - HTTP REQUEST - Register ID# 0 - REMOTE IP# 127.0.0.1 - \\012", sip.2)

/-- The six weighted log kinds of the Verifone generator. -/
inductive VerifoneEvent
  | apiRequest | userAuth | apiWithUser | pamSsh | sshError | movement
deriving Repr, DecidableEq

/-- The `random.choices(..., weights=[40, 20, 25, 8, 2, 5])` table shared
by both Verifone entry points. -/
def verifoneLogWeights : List (VerifoneEvent × Int) :=
  [(VerifoneEvent.apiRequest, 40), (VerifoneEvent.userAuth, 20),
   (VerifoneEvent.apiWithUser, 25), (VerifoneEvent.pamSsh, 8),
   (VerifoneEvent.sshError, 2), (VerifoneEvent.movement, 5)]

/-- Dispatch a drawn Verifone log kind on a back-dated timestamp `ts`,
with `now` the live clock (consumed only by the PAM/SSH templates). -/
def verifoneDispatch (ev : VerifoneEvent) (st : VerifoneState) (ts now : Int)
    (w : World) : String × World :=
  match ev with
  | .apiRequest => verifoneApiRequestLog st ts w
  | .userAuth => verifoneUserAuthLog st ts w
  | .apiWithUser => verifoneApiWithUserLog st ts w
  | .pamSsh => verifonePamSshLog st ts now w
  | .sshError => verifoneSshErrorLog st ts w
  | .movement => verifoneMovementLog st ts w

/-- `VerifonePOSGenerator.generate_log()`: anchored to the live clock `now`
(NOT the instance's reference clock), minus a uniform offset of
`randint(0, 3600)` seconds. -/
def verifoneGenerateLog (st : VerifoneState) (now : Int) (w : World) :
    String × World :=
  let offs := randintN 0 3600 w
  let ts := now - (offs.1 : Int) * 1000000
  let ev := weightedChoiceRun verifoneLogWeights VerifoneEvent.apiRequest offs.2
  verifoneDispatch ev.1 st ts now ev.2

/-- Loop body of `VerifonePOSGenerator.generate_logs(count)`: record `i`
is back-dated by `(count - i) * uniform(0.5, 5)` seconds from the batch
base time (exact on the model's random grid, where the product is an
integer number of microseconds). -/
def verifoneRawGo (st : VerifoneState) (baseTime : Int) (count : Nat) :
    Nat → Nat → World → List String × World
  | _, 0, w => ([], w)
  | i, fuel + 1, w =>
    -- (count - i) * uniform(0.5, 5) seconds: with random() = u/200 this is
    -- exactly (count - i) * (500000 + 22500*u) microseconds
    let (u, w) := pyRandom w
    let offsUs : Int := ((count - i) * (500000 + 22500 * u) : Nat)
    let ts := baseTime - offsUs
    let (ev, w) := weightedChoiceRun verifoneLogWeights VerifoneEvent.apiRequest w
    let (line, w) := verifoneDispatch ev st ts baseTime w
    let (rest, w) := verifoneRawGo st baseTime count (i + 1) fuel w
    (line :: rest, w)

/-- The unsorted record list of `generate_logs(count)`. -/
def verifoneRawLogs (st : VerifoneState) (now : Int) (count : Nat) (w : World) :
    List String × World :=
  verifoneRawGo st now count 0 count w

/-- `logs.sort(reverse=True)`: Python's stable sort with all comparisons
reversed, i.e. a stable descending sort by string value. -/
def pySortDesc (l : List String) : List String :=
  l.mergeSort fun a b => decide (b ≤ a)

/-- `VerifonePOSGenerator.generate_logs(count)`: build the back-dated
records, then sort them by string value in descending order. -/
def verifoneGenerateLogs (st : VerifoneState) (now : Int) (count : Nat)
    (w : World) : List String × World :=
  let (logs, w) := verifoneRawLogs st now count w
  (pySortDesc logs, w)

/-! ## Whole-run wrappers: construct with a seed at clock `now`, then drive
`n` generate-one calls, starting from an arbitrary prior global state `w` -/

/-- Construct a `SyslogGenerator(seed)` at clock `now` in world `w` and
collect `n` generate-one calls. -/
def runSyslog (seed : Option Int) (now : Int) (n : Nat) (w : World) :
    List String :=
  let (st, w) := syslogInit seed now w
  (syslogGenerateLogs st n w).1

/-- Same for `AuditdGenerator`. -/
def runAuditd (seed : Option Int) (now : Int) (n : Nat) (w : World) :
    List String :=
  let (a, w) := auditdInit seed now w
  (auditdGenerateLogs a n w).1

/-- Same for `CEFFirewallGenerator`. -/
def runCEF (seed : Option Int) (now : Int) (n : Nat) (w : World) :
    List String :=
  let (st, w) := cefInit seed now w
  (cefGenerateLogs st n w).1

/-- Same for `WindowsSecurityGenerator`. -/
def runWin (seed : Option Int) (now : Int) (n : Nat) (w : World) :
    List String :=
  let (st, w) := winInit seed now w
  (winGenerateLogs st n w).1

/-- `n` Verifone generate-one calls, each anchored to the live clock `now`. -/
def verifoneGenerateLogN (st : VerifoneState) (now : Int) :
    Nat → World → List String × World
  | 0, w => ([], w)
  | n + 1, w =>
    let (x, w) := verifoneGenerateLog st now w
    let (rest, w) := verifoneGenerateLogN st now n w
    (x :: rest, w)

/-- Same for `VerifonePOSGenerator` (each generate-one call reads the live
clock; identical call sequences supply the same `now`). -/
def runVerifone (seed : Option Int) (now : Int) (n : Nat) (w : World) :
    List String :=
  let (st, w) := verifoneInit seed now w
  (verifoneGenerateLogN st now n w).1

/-! ## Predicates and specifications used by the theorems -/

/-- The three RFC1918 template shapes the private IP branch can produce
(octet view): 10.0.0.0/8, 172.16.0.0/12 (second octet 16-31), or
192.168.0.0/16. -/
def inPrivateBlocks (o : Nat × Nat × Nat × Nat) : Prop :=
  o.1 = 10 ∨ (o.1 = 172 ∧ 16 ≤ o.2.1 ∧ o.2.1 ≤ 31) ∨ (o.1 = 192 ∧ o.2.1 = 168)

/-- Well-formedness of `_format_cef` arguments: the seven header fields and
every extension key are pipe- and backslash-free (extension VALUES are
arbitrary: they get escaped). -/
def GoodCEF (args : CEFArgs) : Prop :=
  pipeSafe args.vendor = true ∧ pipeSafe args.product = true ∧
  pipeSafe args.version = true ∧ pipeSafe args.eventClassId = true ∧
  pipeSafe args.name = true ∧ pipeSafe (Nat.repr args.severity) = true ∧
  ∀ kv ∈ args.extensions, pipeSafe kv.1 = true

/-- The eight top-level segments a well-formed CEF line decomposes into:
the `CEF:0` marker, the six remaining header fields, and the extension
segment with its `key=value` pairs in insertion order. -/
def cefSegments (args : CEFArgs) : List String :=
  ["CEF:0", args.vendor, args.product, args.version, args.eventClassId,
   args.name, Nat.repr args.severity,
   joinSep " " (args.extensions.map fun kv => kv.1 ++ "=" ++ escapeCEF kv.2)]

/-- A character block that the unescaped-pipe scanner walks through without
ever splitting, entering and leaving in the even-backslash-run state. -/
def ScanClean (l : List Char) : Prop :=
  ∀ rest acc, splitUnescAux (l ++ rest) acc false =
    splitUnescAux rest (l.reverse ++ acc) false


/-! # Proofs -/

set_option maxRecDepth 16000

theorem randintN_lb (a b : Nat) (w : World) : a ≤ (randintN a b w).1 :=
  Nat.le_add_right a _

theorem randintN_ub (a b : Nat) (w : World) (h : a ≤ b) : (randintN a b w).1 ≤ b := by
  show a + (nextNat w).1 % (b - a + 1) ≤ b
  have := Nat.mod_lt (nextNat w).1 (y := b - a + 1) (by omega)
  omega

theorem getD_prop {α : Type} {P : α → Prop} (l : List α) (i : Nat) (d : α)
    (hl : ∀ x ∈ l, P x) (hd : P d) : P (l.getD i d) := by
  rcases h : l[i]? with _ | x
  · simp [List.getD_eq_getElem?_getD, h, hd]
  · rw [List.getD_eq_getElem?_getD, h]
    exact hl x (List.getElem?_mem h)

theorem pyChoice_prop {α : Type} {P : α → Prop} (l : List α) (d : α) (w : World)
    (hl : ∀ x ∈ l, P x) (hd : P d) : P (pyChoice l d w).1 :=
  getD_prop l _ d hl hd

theorem pyChoice_mem {α : Type} (l : List α) (d : α) (w : World) (h : l ≠ []) :
    (pyChoice l d w).1 ∈ l := by
  have hlen : 0 < l.length := List.length_pos.mpr h
  have hlt : ((nextNat w).1 % l.length) < l.length := Nat.mod_lt _ hlen
  show l.getD ((nextNat w).1 % l.length) d ∈ l
  rw [List.getD_eq_getElem?_getD, List.getElem?_eq_getElem hlt]
  exact List.getElem_mem hlt

theorem pyRandomVal_lb (v : Nat) : 1 ≤ pyRandomVal v := by
  unfold pyRandomVal; omega

theorem pyRandomVal_ub (v : Nat) : pyRandomVal v ≤ 199 := by
  unfold pyRandomVal
  have := Nat.mod_lt v (y := 100) (by omega)
  omega

/-! ## Auditd sequence counter (claim C4) -/

theorem getAuditTimestamp_seq (a : AuditdState) (w : World) :
    (getAuditTimestamp a w).1.2 = (getAuditTimestamp a w).2.1.sequenceCounter := rfl

theorem getAuditTimestamp_counter (a : AuditdState) (w : World) :
    ∃ inc, 1 ≤ inc ∧ inc ≤ 10 ∧
      (getAuditTimestamp a w).2.1.sequenceCounter = a.sequenceCounter + inc := by
  unfold getAuditTimestamp
  rcases h1 : generateDatetime a.base 7 w with ⟨dt, w1⟩
  simp only [h1]
  rcases h2 : randintN 0 999 w1 with ⟨ms, w2⟩
  simp only [h2]
  have hlb := randintN_lb 1 10 w2
  have hub := randintN_ub 1 10 w2 (by omega)
  rcases h3 : randintN 1 10 w2 with ⟨inc, w3⟩
  rw [h3] at hlb hub
  exact ⟨inc, hlb, hub, rfl⟩

theorem auditdSyscallEvent_state (a : AuditdState) (w : World) :
    (auditdSyscallEvent a w).2.1 = (getAuditTimestamp a w).2.1 := by
  unfold auditdSyscallEvent
  repeat' split
  all_goals simp_all

theorem auditdExecveEvent_state (a : AuditdState) (w : World) :
    (auditdExecveEvent a w).2.1 = (getAuditTimestamp a w).2.1 := by
  unfold auditdExecveEvent
  repeat' split
  all_goals simp_all

theorem auditdUserAuthEvent_state (a : AuditdState) (w : World) :
    (auditdUserAuthEvent a w).2.1 = (getAuditTimestamp a w).2.1 := by
  unfold auditdUserAuthEvent
  repeat' split
  all_goals simp_all

theorem auditdUserCmdEvent_state (a : AuditdState) (w : World) :
    (auditdUserCmdEvent a w).2.1 = (getAuditTimestamp a w).2.1 := by
  unfold auditdUserCmdEvent
  repeat' split
  all_goals simp_all

theorem auditdCredEvent_state (a : AuditdState) (w : World) :
    (auditdCredEvent a w).2.1 = (getAuditTimestamp a w).2.1 := by
  unfold auditdCredEvent
  repeat' split
  all_goals simp_all

theorem auditdLoginEvent_state (a : AuditdState) (w : World) :
    (auditdLoginEvent a w).2.1 = (getAuditTimestamp a w).2.1 := by
  unfold auditdLoginEvent
  repeat' split
  all_goals simp_all

theorem auditdGenerateLog_counter (a : AuditdState) (w : World) :
    ∃ inc, 1 ≤ inc ∧ inc ≤ 10 ∧
      (auditdGenerateLog a w).2.1.sequenceCounter = a.sequenceCounter + inc := by
  unfold auditdGenerateLog
  repeat' split
  all_goals first
  | (rw [auditdSyscallEvent_state]; exact getAuditTimestamp_counter _ _)
  | (rw [auditdExecveEvent_state]; exact getAuditTimestamp_counter _ _)
  | (rw [auditdUserAuthEvent_state]; exact getAuditTimestamp_counter _ _)
  | (rw [auditdUserCmdEvent_state]; exact getAuditTimestamp_counter _ _)
  | (rw [auditdCredEvent_state]; exact getAuditTimestamp_counter _ _)
  | (rw [auditdLoginEvent_state]; exact getAuditTimestamp_counter _ _)

theorem auditMsg_bridge (t ts : String) (n : Nat) (r : String) (rs : List String) :
    ∃ pre post,
      joinSep " " (t :: ("msg=audit(" ++ ts ++ ":" ++ Nat.repr n ++ "):") :: r :: rs) =
        pre ++ ":" ++ Nat.repr n ++ "):" ++ post := by
  refine ⟨t ++ " " ++ "msg=audit(" ++ ts, " " ++ joinSep " " (r :: rs), ?_⟩
  simp only [joinSep, String.append_assoc]

theorem auditdSyscallEvent_bridge (a : AuditdState) (w : World) :
    ∃ pre post, (auditdSyscallEvent a w).1 =
      pre ++ ":" ++ Nat.repr ((auditdSyscallEvent a w).2.1.sequenceCounter) ++ "):" ++ post := by
  unfold auditdSyscallEvent
  have hseq := getAuditTimestamp_seq a w
  rcases h1 : getAuditTimestamp a w with ⟨tsq, a1, w1⟩
  rw [h1] at hseq
  simp only [h1]
  repeat' split
  all_goals (rw [← hseq]; exact auditMsg_bridge _ _ _ _ _)

theorem auditdExecveEvent_bridge (a : AuditdState) (w : World) :
    ∃ pre post, (auditdExecveEvent a w).1 =
      pre ++ ":" ++ Nat.repr ((auditdExecveEvent a w).2.1.sequenceCounter) ++ "):" ++ post := by
  unfold auditdExecveEvent
  have hseq := getAuditTimestamp_seq a w
  rcases h1 : getAuditTimestamp a w with ⟨tsq, a1, w1⟩
  rw [h1] at hseq
  simp only [h1]
  repeat' split
  all_goals (rw [← hseq]; exact auditMsg_bridge _ _ _ _ _)

theorem auditdUserAuthEvent_bridge (a : AuditdState) (w : World) :
    ∃ pre post, (auditdUserAuthEvent a w).1 =
      pre ++ ":" ++ Nat.repr ((auditdUserAuthEvent a w).2.1.sequenceCounter) ++ "):" ++ post := by
  unfold auditdUserAuthEvent
  have hseq := getAuditTimestamp_seq a w
  rcases h1 : getAuditTimestamp a w with ⟨tsq, a1, w1⟩
  rw [h1] at hseq
  simp only [h1]
  repeat' split
  all_goals (rw [← hseq]; exact auditMsg_bridge _ _ _ _ _)

theorem auditdUserCmdEvent_bridge (a : AuditdState) (w : World) :
    ∃ pre post, (auditdUserCmdEvent a w).1 =
      pre ++ ":" ++ Nat.repr ((auditdUserCmdEvent a w).2.1.sequenceCounter) ++ "):" ++ post := by
  unfold auditdUserCmdEvent
  have hseq := getAuditTimestamp_seq a w
  rcases h1 : getAuditTimestamp a w with ⟨tsq, a1, w1⟩
  rw [h1] at hseq
  simp only [h1]
  repeat' split
  all_goals (rw [← hseq]; exact auditMsg_bridge _ _ _ _ _)

theorem auditdCredEvent_bridge (a : AuditdState) (w : World) :
    ∃ pre post, (auditdCredEvent a w).1 =
      pre ++ ":" ++ Nat.repr ((auditdCredEvent a w).2.1.sequenceCounter) ++ "):" ++ post := by
  unfold auditdCredEvent
  have hseq := getAuditTimestamp_seq a w
  rcases h1 : getAuditTimestamp a w with ⟨tsq, a1, w1⟩
  rw [h1] at hseq
  simp only [h1]
  repeat' split
  all_goals (rw [← hseq]; exact auditMsg_bridge _ _ _ _ _)

theorem auditdLoginEvent_bridge (a : AuditdState) (w : World) :
    ∃ pre post, (auditdLoginEvent a w).1 =
      pre ++ ":" ++ Nat.repr ((auditdLoginEvent a w).2.1.sequenceCounter) ++ "):" ++ post := by
  unfold auditdLoginEvent
  have hseq := getAuditTimestamp_seq a w
  rcases h1 : getAuditTimestamp a w with ⟨tsq, a1, w1⟩
  rw [h1] at hseq
  simp only [h1]
  repeat' split
  all_goals (rw [← hseq]; exact auditMsg_bridge _ _ _ _ _)

theorem auditdGenerateLog_bridge (a : AuditdState) (w : World) :
    ∃ pre post, (auditdGenerateLog a w).1 =
      pre ++ ":" ++ Nat.repr ((auditdGenerateLog a w).2.1.sequenceCounter) ++ "):" ++ post := by
  unfold auditdGenerateLog
  repeat' split
  · exact auditdSyscallEvent_bridge _ _
  · exact auditdExecveEvent_bridge _ _
  · exact auditdUserAuthEvent_bridge _ _
  · exact auditdUserCmdEvent_bridge _ _
  · exact auditdCredEvent_bridge _ _
  · exact auditdLoginEvent_bridge _ _

theorem auditdRun_zero (a : AuditdState) (w : World) : auditdRun a 0 w = ([], a, w) := rfl

theorem auditdRun_succ (a : AuditdState) (n : Nat) (w : World) :
    auditdRun a (n + 1) w =
      (((auditdGenerateLog a w).1, (auditdGenerateLog a w).2.1.sequenceCounter) ::
          (auditdRun (auditdGenerateLog a w).2.1 n (auditdGenerateLog a w).2.2).1,
        (auditdRun (auditdGenerateLog a w).2.1 n (auditdGenerateLog a w).2.2).2) := by
  rw [auditdRun]

theorem auditdRun_length (a : AuditdState) (n : Nat) (w : World) :
    (auditdRun a n w).1.length = n := by
  induction n generalizing a w with
  | zero =>
    rw [auditdRun_zero]
    rfl
  | succ n ih =>
    rw [auditdRun_succ]
    simp only [List.length_cons]
    rw [ih]

theorem auditdRun_chain (a : AuditdState) (n : Nat) (w : World) :
    List.Chain (fun x y => x + 1 ≤ y ∧ y ≤ x + 10) a.sequenceCounter
      ((auditdRun a n w).1.map Prod.snd) := by
  induction n generalizing a w with
  | zero =>
    rw [auditdRun_zero]
    exact List.Chain.nil
  | succ n ih =>
    rw [auditdRun_succ]
    obtain ⟨inc, h1, h10, hc⟩ := auditdGenerateLog_counter a w
    simp only [List.map_cons]
    exact List.Chain.cons ⟨by omega, by omega⟩ (ih _ _)

theorem auditdRun_records (a : AuditdState) (n : Nat) (w : World) :
    ∀ p ∈ (auditdRun a n w).1,
      ∃ pre post, p.1 = pre ++ ":" ++ Nat.repr p.2 ++ "):" ++ post := by
  induction n generalizing a w with
  | zero =>
    rw [auditdRun_zero]
    intro p hp
    simp at hp
  | succ n ih =>
    rw [auditdRun_succ]
    intro p hp
    rcases List.mem_cons.mp hp with hhd | htl
    · subst hhd
      simpa using auditdGenerateLog_bridge a w
    · exact ih _ _ p htl

theorem auditdInit_counter (seed : Option Int) (now : Int) (w : World) :
    100 ≤ (auditdInit seed now w).1.sequenceCounter ∧
      (auditdInit seed now w).1.sequenceCounter ≤ 10000 := by
  unfold auditdInit
  rcases h : baseInit seed now w with ⟨b, w1⟩
  simp only [h]
  have hlb := randintN_lb 100 10000 w1
  have hub := randintN_ub 100 10000 w1 (by omega)
  rcases h2 : randintN 100 10000 w1 with ⟨c, w2⟩
  rw [h2] at hlb hub
  exact ⟨hlb, hub⟩

/-- Claim C4: for one AuditdGenerator instance, the sequence numbers paired
with the N records of a run (the exact values interpolated into each
record's `msg=audit(<ts>:<seq>):` header, as witnessed by the last
conjunct) are strictly increasing in call order; the counter starts at a
value in [100, 10000] drawn at construction and grows by an amount in
[1, 10] on every timestamped event. -/
theorem c4_auditd_sequence_monotonicity (seed : Option Int) (now : Int)
    (w0 : World) (n : Nat) (a : AuditdState) (w : World)
    (h : auditdInit seed now w0 = (a, w)) :
    100 ≤ a.sequenceCounter ∧ a.sequenceCounter ≤ 10000 ∧
    (auditdRun a n w).1.length = n ∧
    List.Chain (fun x y => x + 1 ≤ y ∧ y ≤ x + 10) a.sequenceCounter
      ((auditdRun a n w).1.map Prod.snd) ∧
    List.Pairwise (fun x y => x < y) ((auditdRun a n w).1.map Prod.snd) ∧
    ∀ p ∈ (auditdRun a n w).1, ∃ pre post,
      p.1 = pre ++ ":" ++ Nat.repr p.2 ++ "):" ++ post := by
  have hi := auditdInit_counter seed now w0
  rw [h] at hi
  refine ⟨hi.1, hi.2, auditdRun_length a n w, auditdRun_chain a n w, ?_,
    auditdRun_records a n w⟩
  have hch := auditdRun_chain a n w
  have hlt : List.Chain (fun x y : Nat => x < y) a.sequenceCounter
      ((auditdRun a n w).1.map Prod.snd) :=
    List.Chain.imp (fun x y hxy => by omega) hch
  have hp : List.Pairwise (fun x y : Nat => x < y)
      (a.sequenceCounter :: (auditdRun a n w).1.map Prod.snd) := by
    rw [← List.chain'_iff_pairwise]
    exact hlt
  exact (List.pairwise_cons.mp hp).2

/-- Witness for C4: a concrete three-record run from a seeded instance. -/
theorem c4_auditd_sequence_monotonicity_witness :
    auditdInit (some 3) 1760000000123456 ⟨⟨1, 0⟩, ⟨2, 0⟩⟩ =
      ((auditdInit (some 3) 1760000000123456 ⟨⟨1, 0⟩, ⟨2, 0⟩⟩).1,
       (auditdInit (some 3) 1760000000123456 ⟨⟨1, 0⟩, ⟨2, 0⟩⟩).2) ∧
    List.Pairwise (fun x y => x < y)
      ((auditdRun (auditdInit (some 3) 1760000000123456 ⟨⟨1, 0⟩, ⟨2, 0⟩⟩).1 3
        (auditdInit (some 3) 1760000000123456 ⟨⟨1, 0⟩, ⟨2, 0⟩⟩).2).1.map Prod.snd) :=
  ⟨rfl,
   (c4_auditd_sequence_monotonicity (some 3) 1760000000123456 ⟨⟨1, 0⟩, ⟨2, 0⟩⟩ 3
      (auditdInit (some 3) 1760000000123456 ⟨⟨1, 0⟩, ⟨2, 0⟩⟩).1
      (auditdInit (some 3) 1760000000123456 ⟨⟨1, 0⟩, ⟨2, 0⟩⟩).2 rfl).2.2.2.2.1⟩

/-! ## CEF escaping and splitting (claim C5) -/

theorem scanClean_nil : ScanClean [] := fun _ _ => rfl

theorem scanClean_append {a b : List Char} (ha : ScanClean a) (hb : ScanClean b) :
    ScanClean (a ++ b) := by
  intro rest acc
  rw [List.append_assoc, ha (b ++ rest) acc, hb rest (a.reverse ++ acc),
    List.reverse_append, List.append_assoc]

theorem scanClean_plain {c : Char} (h1 : c ≠ '|') (h2 : c ≠ '\\') : ScanClean [c] := by
  intro rest acc
  show splitUnescAux (c :: rest) acc false = splitUnescAux rest (c :: acc) false
  simp [splitUnescAux, h1, h2]

theorem scanClean_bb : ScanClean ['\\', '\\'] := fun _ _ => rfl

theorem scanClean_bp : ScanClean ['\\', '|'] := fun _ _ => rfl

theorem scanClean_escChar (c : Char) : ScanClean (escChar c) := by
  unfold escChar
  by_cases h1 : c = '\\'
  · rw [if_pos h1]; exact scanClean_bb
  · by_cases h2 : c = '|'
    · rw [if_neg h1, if_pos h2]; exact scanClean_bp
    · rw [if_neg h1, if_neg h2]; exact scanClean_plain h2 h1

theorem replPipe_append (a b : List Char) :
    replPipe (a ++ b) = replPipe a ++ replPipe b := by
  induction a with
  | nil => rfl
  | cons c t ih => simp [replPipe, ih]

theorem scanClean_escape (l : List Char) :
    ScanClean (replPipe (replBackslash l)) := by
  induction l with
  | nil => exact scanClean_nil
  | cons c t ih =>
    have hcons : replBackslash (c :: t)
        = (if c = '\\' then ['\\', '\\'] else [c]) ++ replBackslash t := by
      simp [replBackslash]
    rw [hcons, replPipe_append]
    refine scanClean_append ?_ ih
    by_cases h1 : c = '\\'
    · rw [if_pos h1]; exact scanClean_bb
    · rw [if_neg h1]
      by_cases h2 : c = '|'
      · rw [h2]; exact scanClean_bp
      · have hr : replPipe [c] = [c] := by simp [replPipe, h2]
        rw [hr]; exact scanClean_plain h2 h1

theorem scanClean_of_safe (l : List Char) (h : ∀ c ∈ l, ¬c = '|' ∧ ¬c = '\\') :
    ScanClean l := by
  induction l with
  | nil => exact scanClean_nil
  | cons c t ih =>
    have hc := h c (List.mem_cons_self c t)
    exact scanClean_append (a := [c]) (scanClean_plain hc.1 hc.2)
      (ih fun x hx => h x (List.mem_cons_of_mem c hx))

theorem scanClean_of_pipeSafe {s : String} (h : pipeSafe s = true) : ScanClean s.data := by
  unfold pipeSafe at h
  rw [List.all_eq_true] at h
  refine scanClean_of_safe s.data fun c hc => ?_
  exact of_decide_eq_true (h c hc)

theorem string_data_append (a b : String) : (a ++ b).data = a.data ++ b.data := rfl

theorem scanClean_kv {k v : String} (hk : pipeSafe k = true) :
    ScanClean (k ++ "=" ++ escapeCEF v).data := by
  rw [string_data_append, string_data_append]
  exact scanClean_append
    (scanClean_append (scanClean_of_pipeSafe hk) (scanClean_of_safe ['='] (by decide)))
    (scanClean_escape v.data)

theorem scanClean_joinSep_space (parts : List String)
    (hp : ∀ p ∈ parts, ScanClean p.data) : ScanClean (joinSep " " parts).data := by
  induction parts with
  | nil => exact scanClean_nil
  | cons x xs ih =>
    cases xs with
    | nil => exact hp x (by simp)
    | cons y ys =>
      have h2 : joinSep " " (x :: y :: ys) = x ++ " " ++ joinSep " " (y :: ys) := by
        rw [joinSep]
      rw [h2, string_data_append, string_data_append]
      refine scanClean_append
        (scanClean_append (hp x (by simp)) (scanClean_of_safe [' '] (by decide))) (ih ?_)
      intro p hpm
      exact hp p (List.mem_cons_of_mem x hpm)

theorem splitUnescAux_clean_end {l : List Char} (h : ScanClean l) (acc : List Char) :
    splitUnescAux l acc false = [(l.reverse ++ acc).reverse] := by
  have h0 := h [] acc
  rw [List.append_nil] at h0
  rw [h0]
  rfl

theorem splitUnescPipes_joinSep (parts : List String)
    (hp : ∀ p ∈ parts, ScanClean p.data) (hne : parts ≠ []) :
    splitUnescPipes (joinSep "|" parts) = parts := by
  induction parts with
  | nil => exact absurd rfl hne
  | cons x xs ih =>
    cases xs with
    | nil =>
      show (splitUnescAux (joinSep "|" [x]).data [] false).map (fun l => (⟨l⟩ : String)) = [x]
      have h1 : joinSep "|" [x] = x := rfl
      rw [h1, splitUnescAux_clean_end (hp x (by simp)) []]
      simp
    | cons y ys =>
      have hx := hp x (by simp)
      have h2 : joinSep "|" (x :: y :: ys) = x ++ "|" ++ joinSep "|" (y :: ys) := by
        rw [joinSep]
      show (splitUnescAux (joinSep "|" (x :: y :: ys)).data [] false).map
        (fun l => (⟨l⟩ : String)) = x :: y :: ys
      rw [h2, string_data_append, string_data_append]
      have hpd : ("|" : String).data = ['|'] := rfl
      rw [hpd, List.append_assoc, List.singleton_append,
        hx ('|' :: (joinSep "|" (y :: ys)).data) []]
      have hstep : splitUnescAux ('|' :: (joinSep "|" (y :: ys)).data)
          (x.data.reverse ++ []) false
          = (x.data.reverse ++ []).reverse
            :: splitUnescAux (joinSep "|" (y :: ys)).data [] false := by
        rw [splitUnescAux]
        simp
      rw [hstep]
      have ihr := ih (fun p hpm => hp p (List.mem_cons_of_mem x hpm)) (by simp)
      unfold splitUnescPipes at ihr
      simp only [List.map_cons, List.append_nil, List.reverse_reverse, ihr]

theorem formatCEF_eq_joinSep (args : CEFArgs) :
    formatCEF args = joinSep "|" (cefSegments args) := rfl

theorem formatCEF_prefix (args : CEFArgs) :
    ∃ rest, formatCEF args = "CEF:0|" ++ rest := by
  refine ⟨joinSep "|" [args.vendor, args.product, args.version, args.eventClassId,
     args.name, Nat.repr args.severity,
     joinSep " " (args.extensions.map fun kv => kv.1 ++ "=" ++ escapeCEF kv.2)], ?_⟩
  rw [formatCEF_eq_joinSep, cefSegments, joinSep]
  have hc : ("CEF:0" ++ "|" : String) = "CEF:0|" := rfl
  rw [← hc]

theorem formatCEF_splits {args : CEFArgs} (h : GoodCEF args) :
    splitUnescPipes (formatCEF args) = cefSegments args := by
  rw [formatCEF_eq_joinSep]
  refine splitUnescPipes_joinSep _ ?_ (by simp [cefSegments])
  obtain ⟨h1, h2, h3, h4, h5, h6, h7⟩ := h
  intro p hpm
  simp only [cefSegments, List.mem_cons, List.not_mem_nil, or_false] at hpm
  rcases hpm with rfl | rfl | rfl | rfl | rfl | rfl | rfl | rfl
  · exact scanClean_of_pipeSafe (by decide)
  · exact scanClean_of_pipeSafe h1
  · exact scanClean_of_pipeSafe h2
  · exact scanClean_of_pipeSafe h3
  · exact scanClean_of_pipeSafe h4
  · exact scanClean_of_pipeSafe h5
  · exact scanClean_of_pipeSafe h6
  · refine scanClean_joinSep_space _ ?_
    intro q hq
    simp only [List.mem_map] at hq
    obtain ⟨kv, hkv, rfl⟩ := hq
    exact scanClean_kv (h7 kv hkv)

theorem digitChar_safe (n : Nat) (h : n < 10) :
    ¬Nat.digitChar n = '|' ∧ ¬Nat.digitChar n = '\\' := by
  interval_cases n <;> exact (by decide)

theorem toDigitsCore_safe : ∀ (fuel n : Nat) (acc : List Char),
    (∀ c ∈ acc, ¬c = '|' ∧ ¬c = '\\') →
    ∀ c ∈ Nat.toDigitsCore 10 fuel n acc, ¬c = '|' ∧ ¬c = '\\' := by
  intro fuel
  induction fuel with
  | zero =>
    intro n acc hacc
    simpa [Nat.toDigitsCore] using hacc
  | succ f ih =>
    intro n acc hacc c hc
    rw [Nat.toDigitsCore] at hc
    have hd := digitChar_safe (n % 10) (Nat.mod_lt _ (by omega))
    split at hc
    · rcases List.mem_cons.mp hc with h | h
      · subst h; exact hd
      · exact hacc c h
    · refine ih (n / 10) _ ?_ c hc
      intro x hx
      rcases List.mem_cons.mp hx with h | h
      · subst h; exact hd
      · exact hacc x h

theorem pipeSafe_natRepr (n : Nat) : pipeSafe (Nat.repr n) = true := by
  unfold pipeSafe
  rw [List.all_eq_true]
  intro c hc
  exact decide_eq_true (toDigitsCore_safe (n + 1) n [] (by simp) c hc)

theorem keys_safe_nil :
    ∀ kv ∈ ([] : List (String × String)), pipeSafe kv.1 = true := by
  intro kv hkv
  cases hkv

theorem keys_safe_cons {k v : String} {t : List (String × String)}
    (hk : pipeSafe k = true) (ht : ∀ kv ∈ t, pipeSafe kv.1 = true) :
    ∀ kv ∈ (k, v) :: t, pipeSafe kv.1 = true := by
  intro kv hkv
  rcases List.mem_cons.mp hkv with h | h
  · subst h; exact hk
  · exact ht kv h

theorem keys_safe_append {a b : List (String × String)}
    (ha : ∀ kv ∈ a, pipeSafe kv.1 = true) (hb : ∀ kv ∈ b, pipeSafe kv.1 = true) :
    ∀ kv ∈ a ++ b, pipeSafe kv.1 = true := by
  intro kv hkv
  rcases List.mem_append.mp hkv with h | h
  · exact ha kv h
  · exact hb kv h

theorem trafficOptionals_keys (e : List (String × String)) (w : World)
    (he : ∀ kv ∈ e, pipeSafe kv.1 = true) :
    ∀ kv ∈ (trafficOptionals e w).1, pipeSafe kv.1 = true := by
  rw [trafficOptionals]
  repeat' split
  all_goals repeat' first
    | exact he
    | exact keys_safe_nil
    | apply keys_safe_append
    | apply keys_safe_cons (by decide)

theorem drawTraffic_good (st : CEFState) (w : World) : GoodCEF (drawTraffic st w).1 := by
  have hv := pyChoice_prop (P := fun t : String × String × List String =>
      pipeSafe t.1 = true ∧ pipeSafe t.2.1 = true ∧ ∀ v ∈ t.2.2, pipeSafe v = true)
    cefVendors ("", "", []) w (by decide) (by decide)
  unfold GoodCEF
  refine ⟨?_, ?_, ?_, ?_, ?_, ?_, ?_⟩
  · rw [drawTraffic]
    simp only []
    exact hv.1
  · rw [drawTraffic]
    simp only []
    exact hv.2.1
  · rw [drawTraffic]
    simp only []
    exact pyChoice_prop _ "" _ hv.2.2 (by decide)
  · rw [drawTraffic]
    simp only []
    decide
  · rw [drawTraffic]
    simp only []
    split <;> simp only [] <;> decide
  · rw [drawTraffic]
    simp only []
    exact pipeSafe_natRepr _
  · rw [drawTraffic]
    simp only []
    refine trafficOptionals_keys _ _ ?_
    repeat' first
      | exact keys_safe_nil
      | apply keys_safe_append
      | apply keys_safe_cons (by decide)

theorem pipeSafe_append {a b : String} (ha : pipeSafe a = true) (hb : pipeSafe b = true) :
    pipeSafe (a ++ b) = true := by
  unfold pipeSafe at *
  rw [string_data_append, List.all_append, ha, hb]
  rfl

theorem drawThreat_good (st : CEFState) (w : World) : GoodCEF (drawThreat st w).1 := by
  have hv := pyChoice_prop (P := fun t : String × String × List String =>
      pipeSafe t.1 = true ∧ pipeSafe t.2.1 = true ∧ ∀ v ∈ t.2.2, pipeSafe v = true)
    cefVendors ("", "", []) w (by decide) (by decide)
  unfold GoodCEF
  refine ⟨?_, ?_, ?_, ?_, ?_, ?_, ?_⟩
  · rw [drawThreat]
    simp only []
    exact hv.1
  · rw [drawThreat]
    simp only []
    exact hv.2.1
  · rw [drawThreat]
    simp only []
    exact pyChoice_prop _ "" _ hv.2.2 (by decide)
  · rw [drawThreat]
    simp only []
    decide
  · rw [drawThreat]
    simp only []
    exact pipeSafe_append (by decide)
      (pyChoice_prop (P := fun s => pipeSafe s = true) cefThreatCategories "" _
        (by decide) (by decide))
  · rw [drawThreat]
    simp only []
    exact pipeSafe_natRepr _
  · rw [drawThreat]
    simp only []
    repeat' split
    all_goals repeat' first
      | exact keys_safe_nil
      | apply keys_safe_append
      | apply keys_safe_cons (by decide)

theorem drawSystem_good (st : CEFState) (w : World) : GoodCEF (drawSystem st w).1 := by
  have hv := pyChoice_prop (P := fun t : String × String × List String =>
      pipeSafe t.1 = true ∧ pipeSafe t.2.1 = true ∧ ∀ v ∈ t.2.2, pipeSafe v = true)
    cefVendors ("", "", []) w (by decide) (by decide)
  have he := pyChoice_prop (P := fun t : String × String × Nat => pipeSafe t.2.1 = true)
    cefSystemEvents ("", "", 0) (pyChoice (pyChoice cefVendors ("", "", []) w).1.2.2 ""
      (pyChoice cefVendors ("", "", []) w).2).2 (by decide) (by decide)
  unfold GoodCEF
  refine ⟨?_, ?_, ?_, ?_, ?_, ?_, ?_⟩
  · rw [drawSystem]
    simp only []
    exact hv.1
  · rw [drawSystem]
    simp only []
    exact hv.2.1
  · rw [drawSystem]
    simp only []
    exact pyChoice_prop _ "" _ hv.2.2 (by decide)
  · rw [drawSystem]
    simp only []
    decide
  · rw [drawSystem]
    simp only []
    exact he
  · rw [drawSystem]
    simp only []
    exact pipeSafe_natRepr _
  · rw [drawSystem]
    simp only []
    repeat' split
    all_goals repeat' first
      | exact keys_safe_nil
      | apply keys_safe_append
      | apply keys_safe_cons (by decide)

theorem cefDraw_good (st : CEFState) (w : World) : GoodCEF (cefDraw st w).1 := by
  rw [cefDraw]
  split
  · exact drawTraffic_good st _
  · split
    · exact drawThreat_good st _
    · exact drawSystem_good st _

/-- C5: every line produced by the CEF generator begins with "CEF:0|", and
splitting it on unescaped pipes recovers exactly the 8 top-level segments:
the CEF:0 marker, the six remaining header fields, and the extension
segment whose key=value pairs appear in insertion order with values
escaped (backslash doubled, pipe backslash-escaped). -/
theorem c5_cef_line_structure (st : CEFState) (w : World) :
    (∃ rest, (cefGenerateLog st w).1 = "CEF:0|" ++ rest) ∧
    splitUnescPipes (cefGenerateLog st w).1 = cefSegments (cefDraw st w).1 ∧
    (splitUnescPipes (cefGenerateLog st w).1).length = 8 := by
  have hline : (cefGenerateLog st w).1 = formatCEF (cefDraw st w).1 := rfl
  have hg := cefDraw_good st w
  refine ⟨?_, ?_, ?_⟩
  · rw [hline]
    exact formatCEF_prefix _
  · rw [hline]
    exact formatCEF_splits hg
  · rw [hline, formatCEF_splits hg]
    rfl

/-! ## CEF TRAFFIC optional extensions (claim C9) -/


theorem trafficOptionals_pair (e : List (String × String)) (w : World)
    (h1 : "deviceInboundInterface" ∉ e.map Prod.fst)
    (h2 : "deviceOutboundInterface" ∉ e.map Prod.fst) :
    ("deviceInboundInterface" ∈ (trafficOptionals e w).1.map Prod.fst ↔
     "deviceOutboundInterface" ∈ (trafficOptionals e w).1.map Prod.fst) := by
  rw [trafficOptionals]
  repeat' split
  all_goals simp_all

theorem drawTraffic_exts (st : CEFState) (w : World) :
    ∃ (e : List (String × String)) (w' : World),
      (drawTraffic st w).1.extensions = (trafficOptionals e w').1 ∧
      e.map Prod.fst = ["rt", "src", "dst", "spt", "dpt", "proto", "act", "out",
        "in", "deviceDirection", "cn1", "cn1Label"] := by
  rw [drawTraffic]
  simp only []
  exact ⟨_, _, rfl, by simp⟩

theorem drawTraffic_interface_pair (st : CEFState) (w : World) :
    ("deviceInboundInterface" ∈ (drawTraffic st w).1.extensions.map Prod.fst ↔
     "deviceOutboundInterface" ∈ (drawTraffic st w).1.extensions.map Prod.fst) := by
  obtain ⟨e, w', hEq, hKeys⟩ := drawTraffic_exts st w
  rw [hEq]
  refine trafficOptionals_pair e w' ?_ ?_ <;> rw [hKeys] <;> decide

/-- C9 amended: the `app` optional extension of a TRAFFIC event is included
by one 50%-of-the-grid draw and can appear with or without the interface
extensions, but `deviceInboundInterface` and `deviceOutboundInterface`
share a SINGLE inclusion draw: one appears exactly when the other does. -/
theorem c9_traffic_optionals_amended :
    (∀ (st : CEFState) (w : World),
      ("deviceInboundInterface" ∈ (drawTraffic st w).1.extensions.map Prod.fst ↔
       "deviceOutboundInterface" ∈ (drawTraffic st w).1.extensions.map Prod.fst)) ∧
    ((List.range 100).countP fun v => trafficOptDraw (pyRandomVal v)) = 50 ∧
    (∃ (st : CEFState) (w : World),
      "app" ∈ (drawTraffic st w).1.extensions.map Prod.fst ∧
      "deviceInboundInterface" ∉ (drawTraffic st w).1.extensions.map Prod.fst) ∧
    (∃ (st : CEFState) (w : World),
      "deviceInboundInterface" ∈ (drawTraffic st w).1.extensions.map Prod.fst ∧
      "app" ∉ (drawTraffic st w).1.extensions.map Prod.fst) := by
  refine ⟨drawTraffic_interface_pair, by decide,
    ⟨⟨⟨none, 0⟩⟩, ⟨⟨8, 0⟩, ⟨0, 0⟩⟩, by decide⟩,
    ⟨⟨⟨none, 0⟩⟩, ⟨⟨3, 0⟩, ⟨0, 0⟩⟩, by decide⟩⟩

/-- C9 counterexample: the claimed independence fails — there is no
reachable TRAFFIC event containing `deviceInboundInterface` without
`deviceOutboundInterface`, because both are appended under the same draw. -/
theorem c9_traffic_optionals_counterexample :
    ¬ ∃ (st : CEFState) (w : World),
      "deviceInboundInterface" ∈ (drawTraffic st w).1.extensions.map Prod.fst ∧
      "deviceOutboundInterface" ∉ (drawTraffic st w).1.extensions.map Prod.fst := by
  rintro ⟨st, w, hin, hout⟩
  exact hout ((drawTraffic_interface_pair st w).mp hin)

/-! ## Windows 4625 failure mapping (claim C8) -/


theorem draw4625_shape (st : WinState) (w : World) :
    ∃ w', ("Failure_Reason", (pyChoice winFailureReasons "" w').1) ∈ (draw4625 st w).1.2.2 ∧
      ("Status", (winStatusFor (pyChoice winFailureReasons "" w').1).1) ∈ (draw4625 st w).1.2.2 ∧
      ("Sub_Status", (winStatusFor (pyChoice winFailureReasons "" w').1).2)
        ∈ (draw4625 st w).1.2.2 := by
  rw [draw4625]
  refine ⟨_, List.mem_cons_of_mem _ (List.mem_cons_of_mem _ (List.mem_cons_self _ _)), ?_, ?_⟩
  · exact List.mem_cons_of_mem _ (List.mem_cons_of_mem _ (List.mem_cons_of_mem _
      (List.mem_cons_self _ _)))
  · exact List.mem_cons_of_mem _ (List.mem_cons_of_mem _ (List.mem_cons_of_mem _
      (List.mem_cons_of_mem _ (List.mem_cons_self _ _))))

/-- C8 amended: every 4625 record draws one of the 6 canonical failure
reasons and embeds that reason with its fixed (Status, Sub_Status) pair
from the status-code table; the attack-style username substitution
happens on 30% of the random grid (`random.random() > 0.7`), not 70%. -/
theorem c8_win4625_amended (st : WinState) (w : World) :
    (∃ r ∈ winFailureReasons,
      ("Failure_Reason", r) ∈ (draw4625 st w).1.2.2 ∧
      ("Status", (winStatusFor r).1) ∈ (draw4625 st w).1.2.2 ∧
      ("Sub_Status", (winStatusFor r).2) ∈ (draw4625 st w).1.2.2) ∧
    ((List.range 100).countP fun v => winAttackSubstituteDraw (pyRandomVal v)) = 30 := by
  obtain ⟨w', h1, h2, h3⟩ := draw4625_shape st w
  exact ⟨⟨_, pyChoice_mem winFailureReasons "" w' (by decide), h1, h2, h3⟩, by decide⟩

/-- C8 counterexample: the substitution draw `random.random() > 0.7` fires
on exactly 30 of the 100 grid values, not 70 as claimed. -/
theorem c8_win4625_counterexample :
    ((List.range 100).countP fun v => winAttackSubstituteDraw (pyRandomVal v)) = 30 ∧
    ((List.range 100).countP fun v => winAttackSubstituteDraw (pyRandomVal v)) ≠ 70 := by
  exact ⟨by decide, by decide⟩

/-! ## IP address generation (claim C3) -/


theorem generateIpOctetsPrivate_spec (w : World) :
    inPrivateBlocks (generateIpOctetsPrivate w).1 ∧
    1 ≤ (generateIpOctetsPrivate w).1.2.2.2 ∧
    (generateIpOctetsPrivate w).1.2.2.2 ≤ 254 ∧
    (generateIpOctetsPrivate w).1.1 = [10, 172, 192].getD ((nextNat w).1 % 3) 10 := by
  delta generateIpOctetsPrivate
  simp only []
  split
  next heq =>
    exact ⟨Or.inl rfl, randintN_lb 1 254 _, randintN_ub 1 254 _ (by decide), by simp [heq]⟩
  next heq =>
    exact ⟨Or.inr (Or.inl ⟨rfl, randintN_lb 16 31 _, randintN_ub 16 31 _ (by decide)⟩),
      randintN_lb 1 254 _, randintN_ub 1 254 _ (by decide), by simp [heq]⟩
  next n heq hne =>
    have h0 : (nextNat w).1 % 3 ≠ 0 := heq
    have h1 : (nextNat w).1 % 3 ≠ 1 := hne
    have h2 : (nextNat w).1 % 3 = 2 := by omega
    exact ⟨Or.inr (Or.inr ⟨rfl, rfl⟩), randintN_lb 1 254 _, randintN_ub 1 254 _ (by decide),
      by simp [h2]⟩

theorem fakerIpv4PublicOctets_spec (w : World) :
    ¬ inPrivateBlocks (fakerIpv4PublicOctets w).1 := by
  have h := getD_prop (P := fun x => x ≠ 10 ∧ x ≠ 172 ∧ x ≠ 192) fakerPublicFirstOctets
    ((fkNext w).1 % fakerPublicFirstOctets.length) 5 (by decide) (by decide)
  have h1 : (fakerIpv4PublicOctets w).1.1
      = fakerPublicFirstOctets.getD ((fkNext w).1 % fakerPublicFirstOctets.length) 5 := by
    delta fakerIpv4PublicOctets
    simp only []
  rintro (h10 | ⟨h172, -⟩ | ⟨h192, -⟩)
  · rw [h1] at h10
    exact h.1 h10
  · rw [h1] at h172
    exact h.2.1 h172
  · rw [h1] at h192
    exact h.2.2 h192

/-- C3: the private branch of `generate_ip_address` always lands in one of
the three RFC1918 templates (10/8, 172.16/12 with second octet in [16,31],
192.168/16) with last octet in [1,254], the block being indexed by a
uniform raw draw mod 3; the public branch delegates to
`faker.ipv4_public()`, whose first octet never matches any of the three
private blocks. -/
theorem c3_ip_address_blocks (w : World) :
    inPrivateBlocks (generateIpOctetsPrivate w).1 ∧
    1 ≤ (generateIpOctetsPrivate w).1.2.2.2 ∧
    (generateIpOctetsPrivate w).1.2.2.2 ≤ 254 ∧
    (generateIpOctetsPrivate w).1.1 = [10, 172, 192].getD ((nextNat w).1 % 3) 10 ∧
    (generateIpAddress true w).1 = ipRender (generateIpOctetsPrivate w).1 ∧
    ¬ inPrivateBlocks (fakerIpv4PublicOctets w).1 ∧
    (generateIpAddress false w).1 = ipRender (fakerIpv4PublicOctets w).1 := by
  obtain ⟨h1, h2, h3, h4⟩ := generateIpOctetsPrivate_spec w
  exact ⟨h1, h2, h3, h4, rfl, fakerIpv4PublicOctets_spec w, rfl⟩

/-! ## Verifone batch sort (claim C6) -/


theorem pySortDesc_idem (l : List String) : pySortDesc (pySortDesc l) = pySortDesc l := by
  unfold pySortDesc
  refine List.mergeSort_of_sorted (List.sorted_mergeSort ?_ ?_ l)
  · intro a b c hab hbc
    exact decide_eq_true (le_trans (of_decide_eq_true hbc) (of_decide_eq_true hab))
  · intro a b
    rcases le_total b a with h | h
    · simp [h]
    · simp [h]

/-- C6: `VerifonePOSGenerator.generate_logs(count)` sorts the back-dated
records by literal string value in descending order (Python stable sort
with reversed comparisons), so re-sorting its output the same way leaves
the sequence unchanged. -/
theorem c6_verifone_sort_idempotent (st : VerifoneState) (now : Int) (count : Nat)
    (w : World) :
    pySortDesc (verifoneGenerateLogs st now count w).1
      = (verifoneGenerateLogs st now count w).1 ∧
    (verifoneGenerateLogs st now count w).1
      = pySortDesc (verifoneRawLogs st now count w).1 := by
  constructor
  · have h : (verifoneGenerateLogs st now count w).1
        = pySortDesc (verifoneRawLogs st now count w).1 := rfl
    rw [h, pySortDesc_idem]
  · rfl

/-! ## Verifone single-record back-dating (claim C7) -/


theorem verifonePrefix_split (ts : Int) (sid : Nat) (sip x : String) :
    ∃ rest, verifonePrefix ts sid sip ++ x = fmtVerifoneTs ts ++ rest := by
  refine ⟨"     - " ++ ("Store " ++ (Nat.repr sid ++ (" - " ++ (sip ++ (" - " ++ x))))), ?_⟩
  rw [verifonePrefix]
  simp only [String.append_assoc]

theorem verifoneDispatch_prefix (ev : VerifoneEvent) (st : VerifoneState)
    (ts now : Int) (w : World) :
    ∃ rest, (verifoneDispatch ev st ts now w).1 = fmtVerifoneTs ts ++ rest := by
  cases ev
  · show ∃ rest, (verifoneApiRequestLog st ts w).1 = fmtVerifoneTs ts ++ rest
    rw [verifoneApiRequestLog]
    simp only [String.append_assoc]
    exact verifonePrefix_split ts _ _ _
  · show ∃ rest, (verifoneUserAuthLog st ts w).1 = fmtVerifoneTs ts ++ rest
    rw [verifoneUserAuthLog]
    simp only [String.append_assoc]
    exact verifonePrefix_split ts _ _ _
  · show ∃ rest, (verifoneApiWithUserLog st ts w).1 = fmtVerifoneTs ts ++ rest
    rw [verifoneApiWithUserLog]
    simp only [String.append_assoc]
    exact verifonePrefix_split ts _ _ _
  · show ∃ rest, (verifonePamSshLog st ts now w).1 = fmtVerifoneTs ts ++ rest
    rw [verifonePamSshLog]
    simp only [String.append_assoc]
    exact verifonePrefix_split ts _ _ _
  · show ∃ rest, (verifoneSshErrorLog st ts w).1 = fmtVerifoneTs ts ++ rest
    rw [verifoneSshErrorLog]
    simp only [String.append_assoc]
    exact verifonePrefix_split ts _ _ _
  · show ∃ rest, (verifoneMovementLog st ts w).1 = fmtVerifoneTs ts ++ rest
    rw [verifoneMovementLog]
    simp only [String.append_assoc]
    exact verifonePrefix_split ts _ _ _

/-- C7 amended: the Verifone single-record entry point IS back-dated — the
record's timestamp is the live clock minus a uniform `randint(0, 3600)`
seconds offset drawn at the start of the call. -/
theorem c7_verifone_backdating_amended (st : VerifoneState) (now : Int) (w : World) :
    ∃ offs : Nat, offs ≤ 3600 ∧
      ∃ rest, (verifoneGenerateLog st now w).1
        = fmtVerifoneTs (now - (offs : Int) * 1000000) ++ rest := by
  refine ⟨(randintN 0 3600 w).1, randintN_ub 0 3600 w (by decide), ?_⟩
  rw [verifoneGenerateLog]
  exact verifoneDispatch_prefix _ st _ now _

/-- C7 counterexample: a concrete seeded run in which `generate_log`'s
record does not start with the live-clock timestamp: the offset draw is
1598 seconds, so the rendered prefix differs from `fmtVerifoneTs now`. -/
theorem c7_verifone_backdating_counterexample :
    ((verifoneGenerateLog (verifoneInit (some 1) 1760000000123456 ⟨⟨1, 0⟩, ⟨2, 0⟩⟩).1
        1760000000123456
        (verifoneInit (some 1) 1760000000123456 ⟨⟨1, 0⟩, ⟨2, 0⟩⟩).2).1.take 23
      ≠ fmtVerifoneTs 1760000000123456) ∧
    (randintN 0 3600
      (verifoneInit (some 1) 1760000000123456 ⟨⟨1, 0⟩, ⟨2, 0⟩⟩).2).1 = 1598 := by
  exact ⟨by decide, by decide⟩

/-! ## weighted_choice totality (claim C10) -/


theorem cumWeights_length (ws : List Int) : (cumWeights ws).length = ws.length := by
  induction ws with
  | nil => rfl
  | cons x xs ih => simp [cumWeights, ih]

theorem cumWeights_getD (ws : List Int) : ∀ (i : Nat), i < ws.length →
    (cumWeights ws).getD i 0 = (ws.take (i + 1)).sum := by
  induction ws with
  | nil => intro i h; simp at h
  | cons x xs ih =>
    intro i h
    cases i with
    | zero => simp [cumWeights]
    | succ i =>
      have hi : i < xs.length := by simpa using h
      show ((cumWeights xs).map (fun c => x + c)).getD i 0 = _
      have hlen : i < (cumWeights xs).length := by rw [cumWeights_length]; exact hi
      rw [List.getD_eq_getElem?_getD, List.getElem?_map, List.getElem?_eq_getElem hlen]
      have hgd : (cumWeights xs)[i] = (xs.take (i + 1)).sum := by
        rw [← List.getD_eq_getElem (cumWeights xs) 0 hlen]
        exact ih i hi
      simp [hgd]

theorem cumWeights_getLastD (ws : List Int) : (cumWeights ws).getLastD 0 = ws.sum := by
  cases hws : ws with
  | nil => rfl
  | cons x xs =>
    have hlen : 0 < ws.length := by rw [hws]; simp
    rw [← hws]
    have hl : ws.length - 1 < ws.length := by omega
    have hcl : ws.length - 1 < (cumWeights ws).length := by rw [cumWeights_length]; exact hl
    rw [List.getLastD_eq_getLast?, List.getLast?_eq_getElem?, cumWeights_length,
      List.getElem?_eq_getElem hcl]
    show (cumWeights ws)[ws.length - 1] = ws.sum
    rw [← List.getD_eq_getElem (cumWeights ws) 0 hcl, cumWeights_getD ws _ hl]
    have : ws.length - 1 + 1 = ws.length := by omega
    rw [this, List.take_length]

theorem sum_take_mono (ws : List Int) (hnn : ∀ x ∈ ws, 0 ≤ x) {m n : Nat} (h : m ≤ n) :
    (ws.take m).sum ≤ (ws.take n).sum := by
  have heq : ws.take m = (ws.take n).take m := by
    rw [List.take_take, Nat.min_eq_left h]
  rw [heq]
  refine List.Sublist.sum_le_sum (List.take_sublist m _) ?_
  intro a ha
  exact hnn a (List.Sublist.mem ha (List.take_sublist n ws))

theorem cumWeights_pairwise (ws : List Int) (hnn : ∀ x ∈ ws, 0 ≤ x) :
    (cumWeights ws).Pairwise (· ≤ ·) := by
  rw [List.pairwise_iff_getElem]
  intro i j hi hj hij
  rw [cumWeights_length] at hi hj
  rw [← List.getD_eq_getElem (cumWeights ws) 0 (by rw [cumWeights_length]; exact hi),
    ← List.getD_eq_getElem (cumWeights ws) 0 (by rw [cumWeights_length]; exact hj),
    cumWeights_getD ws i hi, cumWeights_getD ws j hj]
  exact sum_take_mono ws hnn (by omega)

theorem sorted_filter_spec (B : Int) : ∀ (l : List Int), l.Pairwise (· ≤ ·) →
    ((l.filter fun c => 200 * c ≤ B).length ≤ l.length) ∧
    (((l.filter fun c => 200 * c ≤ B).length < l.length →
      B < 200 * l.getD (l.filter fun c => 200 * c ≤ B).length 0)) ∧
    (0 < (l.filter fun c => 200 * c ≤ B).length →
      200 * l.getD ((l.filter fun c => 200 * c ≤ B).length - 1) 0 ≤ B) := by
  intro l
  induction l with
  | nil => intro _; refine ⟨by simp, by simp, by simp⟩
  | cons x xs ih =>
    intro hp
    have hall := (List.pairwise_cons.mp hp).1
    have hxs := (List.pairwise_cons.mp hp).2
    obtain ⟨ih1, ih2, ih3⟩ := ih hxs
    by_cases hx : 200 * x ≤ B
    · have hef : ((x :: xs).filter fun c => 200 * c ≤ B)
          = x :: (xs.filter fun c => 200 * c ≤ B) := by
        simp [List.filter_cons, hx]
      rw [hef]
      refine ⟨by simpa using ih1, ?_, ?_⟩
      · intro hlt
        have : (xs.filter fun c => 200 * c ≤ B).length < xs.length := by
          simpa using hlt
        exact ih2 this
      · intro _
        rcases Nat.eq_zero_or_pos (xs.filter fun c => 200 * c ≤ B).length with h0 | hpos
        · simp only [List.length_cons, h0]
          exact hx
        · have heq : (x :: xs).getD ((x :: xs.filter fun c => 200 * c ≤ B).length - 1) 0
              = xs.getD ((xs.filter fun c => 200 * c ≤ B).length - 1) 0 := by
            have h1 : (x :: xs.filter fun c => 200 * c ≤ B).length - 1
                = ((xs.filter fun c => 200 * c ≤ B).length - 1) + 1 := by
              simp only [List.length_cons]
              omega
            rw [h1]
            rfl
          rw [heq]
          exact ih3 hpos
    · have hfe : ((x :: xs).filter fun c => 200 * c ≤ B) = [] := by
        rw [List.filter_eq_nil_iff]
        intro a ha
        rcases List.mem_cons.mp ha with rfl | hmem
        · simpa using hx
        · have hxa := hall a hmem
          simp only [decide_eq_true_eq]
          omega
      rw [hfe]
      refine ⟨by simp, ?_, by simp⟩
      intro _
      show B < 200 * x
      omega

theorem bisect_select (ws : List Int) (u : Nat) (hnn : ∀ x ∈ ws, 0 ≤ x)
    (hne : ws ≠ []) (htot : 0 < ws.sum) (hu1 : 1 ≤ u) (hu2 : u ≤ 199) :
    bisectRight (cumWeights ws) u ws.sum (ws.length - 1) < ws.length ∧
    0 < ws.getD (bisectRight (cumWeights ws) u ws.sum (ws.length - 1)) 0 := by
  have hlen0 : 0 < ws.length := List.length_pos.mpr hne
  have hcl : (cumWeights ws).length = ws.length := cumWeights_length ws
  have hhi : (ws.length - 1) ≤ (cumWeights ws).length := by omega
  have hlt : ((cumWeights ws).take (ws.length - 1)).length = ws.length - 1 := by
    rw [List.length_take]
    omega
  have hpl : ((cumWeights ws).take (ws.length - 1)).Pairwise (· ≤ ·) :=
    List.Pairwise.sublist (List.take_sublist _ _) (cumWeights_pairwise ws hnn)
  obtain ⟨s1, s2, s3⟩ := sorted_filter_spec ((u : Int) * ws.sum) _ hpl
  have hbr : bisectRight (cumWeights ws) u ws.sum (ws.length - 1)
      = (((cumWeights ws).take (ws.length - 1)).filter
          fun c => 200 * c ≤ (u : Int) * ws.sum).length := rfl
  set n := (((cumWeights ws).take (ws.length - 1)).filter
    fun c => 200 * c ≤ (u : Int) * ws.sum).length with hn
  have hnhi : n ≤ ws.length - 1 := by rw [hn]; rw [hlt] at s1; exact s1
  have htake : ∀ m, m < ws.length - 1 →
      ((cumWeights ws).take (ws.length - 1)).getD m 0 = (cumWeights ws).getD m 0 := by
    intro m hm
    rw [List.getD_eq_getElem?_getD, List.getD_eq_getElem?_getD, List.getElem?_take,
      if_pos hm]
  have hsum1 : 1 ≤ ws.sum := htot
  have hB1 : (1 : Int) ≤ (u : Int) * ws.sum := by
    have : (1 : Int) ≤ (u : Int) := by exact_mod_cast hu1
    nlinarith
  have hstep : ∀ m, m < ws.length →
      (ws.take (m + 1)).sum = (ws.take m).sum + ws.getD m 0 := by
    intro m hm
    rw [List.sum_take_succ ws m hm, List.getD_eq_getElem ws 0 hm]
  refine ⟨by rw [hbr]; omega, ?_⟩
  rw [hbr]
  rcases Nat.lt_or_ge n (ws.length - 1) with hcase | hcase
  · -- n strictly below hi: the n-th cumulative exceeds the target
    have hlt2 : n < ((cumWeights ws).take (ws.length - 1)).length := by omega
    have hs2 := s2 hlt2
    rw [htake n hcase] at hs2
    have hnw : n < ws.length := by omega
    rw [cumWeights_getD ws n hnw] at hs2
    rcases Nat.eq_zero_or_pos n with h0 | hpos
    · rw [h0] at hs2 ⊢
      have h1 : (ws.take 1).sum = (ws.take 0).sum + ws.getD 0 0 := hstep 0 hlen0
      simp only [List.take_zero, List.sum_nil, zero_add] at h1
      simp only [Nat.zero_add] at hs2
      rw [h1] at hs2
      nlinarith
    · have hs3 := s3 (by omega)
      rw [htake (n - 1) (by omega)] at hs3
      rw [cumWeights_getD ws (n - 1) (by omega)] at hs3
      have hidx : n - 1 + 1 = n := by omega
      rw [hidx] at hs3
      have h1 := hstep n hnw
      omega
  · -- n = hi: the last slot is selected
    have hneq : n = ws.length - 1 := by omega
    rcases Nat.eq_zero_or_pos (ws.length - 1) with h0 | hpos
    · have hlen1 : ws.length = 1 := by omega
      have h1 := hstep 0 hlen0
      simp only [List.take_zero, List.sum_nil, zero_add] at h1
      have h2 : ws.take 1 = ws := by
        have h3 := List.take_length ws
        rw [hlen1] at h3
        exact h3
      rw [h2] at h1
      rw [hneq, h0]
      omega
    · have hs3 := s3 (by omega)
      rw [htake (n - 1) (by omega)] at hs3
      rw [cumWeights_getD ws (n - 1) (by omega)] at hs3
      have hidx : n - 1 + 1 = ws.length - 1 := by omega
      rw [hidx] at hs3
      have hball : (u : Int) * ws.sum < 200 * ws.sum := by
        have : (u : Int) ≤ 199 := by exact_mod_cast hu2
        nlinarith
      have hlast : (ws.take (ws.length - 1 + 1)).sum = ws.sum := by
        have : ws.length - 1 + 1 = ws.length := by omega
        rw [this, List.take_length]
      have h1 := hstep (ws.length - 1) (by omega)
      rw [hlast] at h1
      rw [hneq]
      omega

theorem getD_map_fst {α : Type} (l : List (α × Int)) (d : α) (i : Nat)
    (h : i < l.length) :
    (l.map Prod.fst).getD i d = (l.get ⟨i, h⟩).1 := by
  rw [List.getD_eq_getElem?_getD, List.getElem?_map,
    List.getElem?_eq_getElem h]
  rfl

theorem getD_map_snd {α : Type} (l : List (α × Int)) (i : Nat)
    (h : i < l.length) :
    (l.map Prod.snd).getD i 0 = (l.get ⟨i, h⟩).2 := by
  rw [List.getD_eq_getElem?_getD, List.getElem?_map,
    List.getElem?_eq_getElem h]
  rfl

/-- C10: `weighted_choice` is total exactly on mappings with positive total
weight (nonnegative weights assumed, as at every call site): an empty
mapping or an all-zero total raises before any draw; a positive total
yields a key of the mapping whose own weight is positive (so a zero-weight
key is never selected), and a single positive-weight entry always yields
its sole key. -/
theorem c10_weighted_choice {α : Type} (choices : List (α × Int)) (d : α) (w : World)
    (hnn : ∀ kv ∈ choices, 0 ≤ kv.2) :
    ((choices = [] ∨ (choices.map Prod.snd).sum ≤ 0) →
      ∃ e, weightedChoice choices d w = (.error e, w)) ∧
    (choices ≠ [] → 0 < (choices.map Prod.snd).sum →
      ∃ i, ∃ h : i < choices.length,
        weightedChoice choices d w = (.ok (choices.get ⟨i, h⟩).1, (pyRandom w).2) ∧
        0 < (choices.get ⟨i, h⟩).2) ∧
    (∀ (k : α) (v : Int), choices = [(k, v)] → 0 < v →
      weightedChoice choices d w = (.ok k, (pyRandom w).2)) := by
  have hlen : (choices.map Prod.fst).length = choices.length := by
    rw [List.length_map]
  have hwlen : (choices.map Prod.snd).length = choices.length := by
    rw [List.length_map]
  obtain ⟨u, w2, hpr⟩ : ∃ u w2, pyRandom w = (u, w2) := ⟨_, _, rfl⟩
  have hu1 : 1 ≤ u := by
    have h := pyRandomVal_lb (nextNat w).1
    have h2 : (pyRandom w).1 = u := by rw [hpr]
    rw [← h2]
    exact h
  have hu2 : u ≤ 199 := by
    have h := pyRandomVal_ub (nextNat w).1
    have h2 : (pyRandom w).1 = u := by rw [hpr]
    rw [← h2]
    exact h
  refine ⟨?_, ?_, ?_⟩
  · intro hc
    rw [weightedChoice, pyChoicesW]
    rcases hc with rfl | hsum
    · exact ⟨"IndexError: cum_weights is empty", rfl⟩
    · by_cases hzero : (choices.map Prod.fst).length = 0
      · refine ⟨"IndexError: cum_weights is empty", ?_⟩
        rw [if_pos hzero]
      · refine ⟨"ValueError: Total of weights must be greater than zero", ?_⟩
        rw [if_neg hzero, if_pos (by rw [cumWeights_getLastD]; exact hsum)]
  · intro hne htot
    have hwne : choices.map Prod.snd ≠ [] := by
      intro hc
      exact hne (List.map_eq_nil_iff.mp hc)
    have hwnn : ∀ x ∈ choices.map Prod.snd, 0 ≤ x := by
      intro x hx
      obtain ⟨kv, hkv, rfl⟩ := List.mem_map.mp hx
      exact hnn kv hkv
    obtain ⟨hi1, hi2⟩ := bisect_select (choices.map Prod.snd) u hwnn hwne htot hu1 hu2
    rw [hwlen] at hi1 hi2
    refine ⟨_, hi1, ?_, ?_⟩
    · rw [weightedChoice, pyChoicesW]
      rw [if_neg (by rw [hlen]; omega)]
      rw [if_neg (by rw [cumWeights_getLastD]; omega)]
      rw [hpr]
      show (Except.ok ((choices.map Prod.fst).getD
        (bisectRight (cumWeights (choices.map Prod.snd)) u
          ((cumWeights (choices.map Prod.snd)).getLastD 0)
          ((choices.map Prod.fst).length - 1)) d), w2) = _
      rw [cumWeights_getLastD, hlen]
      rw [getD_map_fst choices d _ hi1]
    · rw [getD_map_snd choices _ hi1] at hi2
      exact hi2
  · intro k v hc hv
    subst hc
    rw [weightedChoice, pyChoicesW]
    rw [if_neg (by simp)]
    have htot1 : (cumWeights ([(k, v)].map Prod.snd)).getLastD 0 = v := rfl
    rw [if_neg (by rw [htot1]; omega)]
    rw [hpr]
    rfl

theorem c10_weighted_choice_witness :
    (∀ kv ∈ [("a", (2 : Int))], 0 ≤ kv.2) ∧
    weightedChoice [("a", (2 : Int))] "z" ⟨⟨0, 0⟩, ⟨0, 0⟩⟩
      = (.ok "a", (pyRandom ⟨⟨0, 0⟩, ⟨0, 0⟩⟩).2) :=
  ⟨by decide, (c10_weighted_choice [("a", 2)] "z" ⟨⟨0, 0⟩, ⟨0, 0⟩⟩ (by decide)).2.2
    "a" 2 rfl (by decide)⟩

/-! ## Seeded determinism and instance interference (claims C1, C2) -/


theorem baseInit_seeded (s : Int) (hs : s ≠ 0) (now : Int) (w : World) :
    baseInit (some s) now w = (⟨some s, now⟩, ⟨pySeedFn s, fakerSeedFn s⟩) := by
  rw [baseInit, if_pos hs]

/-- C1 amended: with a NONZERO integer seed and the same construction-time
clock reading, two independent constructions of any of the five generators
driven by identical call sequences produce identical output lists — the
seeding clobbers the global streams to a seed-determined state.  (Seed 0 is
falsy in Python and performs no seeding at all, and the construction-time
`datetime.now()` must also agree: see the counterexample.) -/
theorem c1_seeded_determinism_amended (s : Int) (hs : s ≠ 0) (now : Int) (n : Nat)
    (w₁ w₂ : World) :
    runSyslog (some s) now n w₁ = runSyslog (some s) now n w₂ ∧
    runAuditd (some s) now n w₁ = runAuditd (some s) now n w₂ ∧
    runCEF (some s) now n w₁ = runCEF (some s) now n w₂ ∧
    runWin (some s) now n w₁ = runWin (some s) now n w₂ ∧
    runVerifone (some s) now n w₁ = runVerifone (some s) now n w₂ := by
  have hb := baseInit_seeded s hs now
  refine ⟨?_, ?_, ?_, ?_, ?_⟩
  · simp only [runSyslog, syslogInit, hb]
  · simp only [runAuditd, auditdInit, hb]
  · simp only [runCEF, cefInit, hb]
  · simp only [runWin, winInit, hb]
  · simp only [runVerifone, verifoneInit, hb]

theorem c1_seeded_determinism_witness :
    ((3 : Int) ≠ 0) ∧
    (runSyslog (some 3) 1760000000123456 2 ⟨⟨1, 0⟩, ⟨2, 0⟩⟩
      = runSyslog (some 3) 1760000000123456 2 ⟨⟨5, 7⟩, ⟨9, 4⟩⟩ ∧
    runAuditd (some 3) 1760000000123456 2 ⟨⟨1, 0⟩, ⟨2, 0⟩⟩
      = runAuditd (some 3) 1760000000123456 2 ⟨⟨5, 7⟩, ⟨9, 4⟩⟩ ∧
    runCEF (some 3) 1760000000123456 2 ⟨⟨1, 0⟩, ⟨2, 0⟩⟩
      = runCEF (some 3) 1760000000123456 2 ⟨⟨5, 7⟩, ⟨9, 4⟩⟩ ∧
    runWin (some 3) 1760000000123456 2 ⟨⟨1, 0⟩, ⟨2, 0⟩⟩
      = runWin (some 3) 1760000000123456 2 ⟨⟨5, 7⟩, ⟨9, 4⟩⟩ ∧
    runVerifone (some 3) 1760000000123456 2 ⟨⟨1, 0⟩, ⟨2, 0⟩⟩
      = runVerifone (some 3) 1760000000123456 2 ⟨⟨5, 7⟩, ⟨9, 4⟩⟩) :=
  ⟨by decide, c1_seeded_determinism_amended 3 (by decide) 1760000000123456 2
    ⟨⟨1, 0⟩, ⟨2, 0⟩⟩ ⟨⟨5, 7⟩, ⟨9, 4⟩⟩⟩

/-- C1 counterexample: seed 0 is accepted but falsy, so the run still
depends on the prior global stream state; and even a nonzero seed does not
reproduce outputs across different construction-time clock readings. -/
theorem c1_seeded_determinism_counterexample :
    runAuditd (some 0) 1760000000123456 1 ⟨⟨1, 0⟩, ⟨2, 0⟩⟩
      ≠ runAuditd (some 0) 1760000000123456 1 ⟨⟨5, 7⟩, ⟨9, 4⟩⟩ ∧
    runAuditd (some 42) 1760000000123456 1 ⟨⟨1, 0⟩, ⟨2, 0⟩⟩
      ≠ runAuditd (some 42) 1760003600123456 1 ⟨⟨1, 0⟩, ⟨2, 0⟩⟩ := by
  exact ⟨by decide, by decide⟩

/-- C2 amended: generator instances share the process-global `random` and
`Faker` streams; constructing an instance with a nonzero seed resets both
to a seed-determined state, erasing any prior stream position — the
construction result is the same whatever happened before. -/
theorem c2_instance_isolation_amended (sB : Int) (hs : sB ≠ 0) (now : Int)
    (w₁ w₂ : World) :
    auditdInit (some sB) now w₁ = auditdInit (some sB) now w₂ ∧
    syslogInit (some sB) now w₁ = syslogInit (some sB) now w₂ ∧
    cefInit (some sB) now w₁ = cefInit (some sB) now w₂ ∧
    winInit (some sB) now w₁ = winInit (some sB) now w₂ ∧
    verifoneInit (some sB) now w₁ = verifoneInit (some sB) now w₂ := by
  have hb := baseInit_seeded sB hs now
  refine ⟨?_, ?_, ?_, ?_, ?_⟩
  · simp only [auditdInit, hb]
  · simp only [syslogInit, hb]
  · simp only [cefInit, hb]
  · simp only [winInit, hb]
  · simp only [verifoneInit, hb]

theorem c2_instance_isolation_witness :
    ((2 : Int) ≠ 0) ∧
    (auditdInit (some 2) 1760000000123456 ⟨⟨1, 0⟩, ⟨2, 0⟩⟩
      = auditdInit (some 2) 1760000000123456 ⟨⟨5, 7⟩, ⟨9, 4⟩⟩ ∧
    syslogInit (some 2) 1760000000123456 ⟨⟨1, 0⟩, ⟨2, 0⟩⟩
      = syslogInit (some 2) 1760000000123456 ⟨⟨5, 7⟩, ⟨9, 4⟩⟩ ∧
    cefInit (some 2) 1760000000123456 ⟨⟨1, 0⟩, ⟨2, 0⟩⟩
      = cefInit (some 2) 1760000000123456 ⟨⟨5, 7⟩, ⟨9, 4⟩⟩ ∧
    winInit (some 2) 1760000000123456 ⟨⟨1, 0⟩, ⟨2, 0⟩⟩
      = winInit (some 2) 1760000000123456 ⟨⟨5, 7⟩, ⟨9, 4⟩⟩ ∧
    verifoneInit (some 2) 1760000000123456 ⟨⟨1, 0⟩, ⟨2, 0⟩⟩
      = verifoneInit (some 2) 1760000000123456 ⟨⟨5, 7⟩, ⟨9, 4⟩⟩) :=
  ⟨by decide, c2_instance_isolation_amended 2 (by decide) 1760000000123456
    ⟨⟨1, 0⟩, ⟨2, 0⟩⟩ ⟨⟨5, 7⟩, ⟨9, 4⟩⟩⟩

/-- C2 counterexample: instances interfere — the first record generator A
(seed 1) produces changes if a second generator B (seed 2) is constructed
in between, because B's seeding resets the shared streams. -/
theorem c2_instance_isolation_counterexample :
    (auditdGenerateLog (auditdInit (some 1) 1760000000123456 ⟨⟨1, 0⟩, ⟨2, 0⟩⟩).1
      (auditdInit (some 1) 1760000000123456 ⟨⟨1, 0⟩, ⟨2, 0⟩⟩).2).1
    ≠ (auditdGenerateLog (auditdInit (some 1) 1760000000123456 ⟨⟨1, 0⟩, ⟨2, 0⟩⟩).1
      (auditdInit (some 2) 1760000000123456
        (auditdInit (some 1) 1760000000123456 ⟨⟨1, 0⟩, ⟨2, 0⟩⟩).2).2).1 := by
  decide
